import Mathlib

/-!
Verification of the player-deduplication engine of `optiq-sports/basketball-be`.

The TypeScript sources are shallowly embedded:
* `StringSimilarity` models `src/common/utils/string-similarity.util.ts`;
* `PlayerDeduplicationService` models
  `src/common/services/player-deduplication.service.ts`;
* `PlayersService` models the merge / bulk-import workflows of
  `src/players/players.service.ts`.

JavaScript strings are `List Char`; JS numbers that carry scores are `ℚ`
(exact arithmetic in place of IEEE doubles); fallible operations return
`Except`.  `toLowerCase` is modelled on the ASCII range, which covers every
comparison the development performs.
-/

/-- Strings are lists of characters. -/
abbrev Str := List Char

/-- ASCII model of JavaScript `toLowerCase` on a single character. -/
def jsLowerChar (c : Char) : Char :=
  if 'A' ≤ c ∧ c ≤ 'Z' then Char.ofNat (c.toNat + 32) else c

/-- Lowercase a whole string (JS `String.prototype.toLowerCase`). -/
def jsLower (s : Str) : Str := s.map jsLowerChar

/-- Whitespace class used by JS `trim` and the regex class `\s`
(space, tab, line feed, carriage return). -/
def isWs (c : Char) : Bool :=
  c = ' ' ∨ c = '\t' ∨ c = '\n' ∨ c = '\r'

/-- JS `String.prototype.trim`: strip leading and trailing whitespace. -/
def jsTrim (s : Str) : Str :=
  ((s.dropWhile isWs).reverse.dropWhile isWs).reverse

/-- The regex character class `\d`. -/
def isDigitC (c : Char) : Bool := '0' ≤ c ∧ c ≤ '9'

/-- The regex character class `\w` = `[A-Za-z0-9_]`. -/
def isWordC (c : Char) : Bool :=
  ('a' ≤ c ∧ c ≤ 'z') ∨ ('A' ≤ c ∧ c ≤ 'Z') ∨ isDigitC c ∨ c = '_'

/-- Numeric value of a digit string (JS `parseInt(-, 10)` on an all-digit
capture). -/
def digitsToNat (ds : Str) : Nat :=
  ds.foldl (fun acc c => acc * 10 + (c.toNat - '0'.toNat)) 0

namespace StringSimilarity

/-- Value of the dynamic-programming matrix cell `matrix[i][j]` of
`StringSimilarity.levenshteinDistance`: the source initialises
`matrix[i][0] = i`, `matrix[0][j] = j` and fills
`matrix[i][j] = min(matrix[i-1][j] + 1, matrix[i][j-1] + 1,
matrix[i-1][j-1] + cost)` where `cost` is 0 iff `str1[i-1] === str2[j-1]`. -/
def levCell (s1 s2 : Str) : Nat → Nat → Nat
  | 0, j => j
  | i + 1, 0 => i + 1
  | i + 1, j + 1 =>
    let cost : Nat := if s1.getD i ' ' = s2.getD j ' ' then 0 else 1
    min (levCell s1 s2 i (j + 1) + 1)
      (min (levCell s1 s2 (i + 1) j + 1) (levCell s1 s2 i j + cost))

/-- `StringSimilarity.levenshteinDistance(str1, str2)`: the bottom-right cell
of the DP matrix. -/
def levenshteinDistance (s1 s2 : Str) : Nat :=
  levCell s1 s2 s1.length s2.length

/-- The textbook Levenshtein recurrence (specification side): distance to
transform one string into the other by single-character inserts, deletes and
substitutions, structural on the list fronts.  The DP matrix of
`levenshteinDistance` is proved equivalent to this recurrence below. -/
def levSpec : Str → Str → Nat
  | [], ys => ys.length
  | x :: xs, [] => (x :: xs).length
  | x :: xs, y :: ys =>
    min (levSpec xs (y :: ys) + 1)
      (min (levSpec (x :: xs) ys + 1)
        (levSpec xs ys + if x = y then 0 else 1))
termination_by a b => a.length + b.length

/-- `StringSimilarity.similarity(str1, str2)` (the edit-similarity
percentage).  The source first returns 0 if either input is falsy (the empty
string), then 100 on strict equality, and otherwise scales the Levenshtein
distance of the lowercased, trimmed inputs by the longer raw length. -/
def similarity (s1 s2 : Str) : ℚ :=
  if s1.isEmpty ∨ s2.isEmpty then 0
  else if s1 = s2 then 100
  else
    let maxLen : ℚ := (max s1.length s2.length : Nat)
    if maxLen = 0 then 100
    else
      let distance : ℚ :=
        (levenshteinDistance (jsTrim (jsLower s1)) (jsTrim (jsLower s2)) : Nat)
      (maxLen - distance) / maxLen * 100

/-- Inner loop of the Jaro first pass: the first index `j` in `js` with
`!str2Matches[j] && str1[i] === str2[j]`. -/
def jaroFindMatch (s1 s2 : Str) (s2m : List Bool) (i : Nat) (js : List Nat) :
    Option Nat :=
  js.find? (fun j => !(s2m.getD j false) && (s1.getD i ' ' = s2.getD j ' '))

/-- Candidate indices `j` scanned for position `i`:
`start = max(0, i - matchWindow)` up to (excluding)
`end = min(i + matchWindow + 1, len2)`; the window is an `Int` because
`matchWindow` can be `-1`. -/
def jaroRange (w : Int) (len2 i : Nat) : List Nat :=
  let start : Nat := (max 0 ((i : Int) - w)).toNat
  let stop : Nat := (min ((i : Int) + w + 1) (len2 : Int)).toNat
  List.range' start (stop - start)

/-- First pass of `StringSimilarity.jaro`: computes the match flags for both
strings and the match count. -/
def jaroMatchPass (s1 s2 : Str) : List Bool × List Bool × Nat :=
  let len1 := s1.length
  let len2 := s2.length
  let w : Int := (max len1 len2 : Nat) / 2 - 1
  (List.range len1).foldl
    (fun st i =>
      match jaroFindMatch s1 s2 st.2.1 i (jaroRange w len2 i) with
      | some j => (st.1.set i true, st.2.1.set j true, st.2.2 + 1)
      | none => st)
    (List.replicate len1 false, List.replicate len2 false, 0)

/-- Fuel-driven walk for `nextSet`; the fuel is the distance to the end of
the list, so the walk is structurally recursive. -/
def nextSetFrom (bs : List Bool) : Nat → Nat → Nat
  | 0, k => k
  | fuel + 1, k => if bs.getD k false then k else nextSetFrom bs fuel (k + 1)

/-- Smallest index at or past the cursor whose flag is set (the JS walk
`while (!str2Matches[k]) k++`); stops at the list length when no flag
remains. -/
def nextSet (bs : List Bool) (k : Nat) : Nat :=
  nextSetFrom bs (bs.length - k) k

/-- Second pass of `StringSimilarity.jaro`: counts transpositions, walking a
cursor `k` over the matched positions of `str2`. -/
def jaroTranspositions (s1 s2 : Str) (s1m s2m : List Bool) : Nat :=
  ((List.range s1.length).foldl
    (fun st i =>
      if s1m.getD i false then
        let k := nextSet s2m st.1
        (k + 1, if s1.getD i ' ' = s2.getD k ' ' then st.2 else st.2 + 1)
      else st)
    (0, 0)).2

/-- `StringSimilarity.jaro(str1, str2)` — the classic Jaro fraction in
`[0, 1]`. -/
def jaro (s1 s2 : Str) : ℚ :=
  let p := jaroMatchPass s1 s2
  let m := p.2.2
  if m = 0 then 0
  else
    let t := jaroTranspositions s1 s2 p.1 p.2.1
    ((m : ℚ) / s1.length + (m : ℚ) / s2.length +
      ((m : ℚ) - (t : ℚ) / 2) / m) / 3

/-- Length of the common prefix of two strings, capped (the source breaks at
the first mismatch and at `i = 4`). -/
def commonPre : Str → Str → Nat → Nat
  | a :: as, b :: bs, cap + 1 => if a = b then 1 + commonPre as bs cap else 0
  | _, _, _ => 0

/-- `StringSimilarity.jaroWinkler(str1, str2)`: equality short-circuits to
100, an empty side gives 0, otherwise the Jaro fraction of the lowercased,
trimmed inputs gets the Winkler prefix bonus and is scaled to 0–100. -/
def jaroWinkler (s1 s2 : Str) : ℚ :=
  if s1 = s2 then 100
  else if s1.isEmpty ∨ s2.isEmpty then 0
  else
    let a := jsTrim (jsLower s1)
    let b := jsTrim (jsLower s2)
    let j := jaro a b
    let pre : ℚ := (commonPre a b 4 : Nat)
    (j + (1 / 10) * pre * (1 - j)) * 100

/-- Helper for `normalize`: the JS replacement of every whitespace run by a
single space.  `prevWs` records whether the previous character was part of
a run already replaced. -/
def collapseWsAux : Bool → Str → Str
  | _, [] => []
  | prevWs, c :: cs =>
    if isWs c then
      if prevWs then collapseWsAux true cs else ' ' :: collapseWsAux true cs
    else c :: collapseWsAux false cs

/-- `StringSimilarity.normalize(str)`: lowercase, trim, collapse internal
whitespace, then drop every character outside `\w` and `\s`. -/
def normalize (s : Str) : Str :=
  (collapseWsAux false (jsTrim (jsLower s))).filter
    (fun c => isWordC c || isWs c)

/-- `StringSimilarity.compare(str1, str2)`: normalize both inputs, then the
better of edit similarity and Jaro-Winkler. -/
def compare (s1 s2 : Str) : ℚ :=
  let normalized1 := normalize s1
  let normalized2 := normalize s2
  max (similarity normalized1 normalized2) (jaroWinkler normalized1 normalized2)

end StringSimilarity

/-- A JS `Date`, exposing the two observations the engine makes of it:
`getTime()` and `getFullYear()`.  Database equality of `DateTime` columns is
equality of timestamps (`time`). -/
structure JsDate where
  time : Int
  year : Int
deriving DecidableEq, Repr

/-- A stored `Player` row (ids are opaque; we model them as `Nat`). -/
structure Player where
  id : Nat
  firstName : Str
  lastName : Str
  email : Option Str := none
  phone : Option Str := none
  height : Option Str := none
  nationality : Option Str := none
  dateOfBirth : Option JsDate := none
deriving DecidableEq, Repr

/-- A `PlayerDeduplicationCandidate`. -/
structure Candidate where
  firstName : Str
  lastName : Str
  email : Option Str := none
  height : Option Str := none
  phone : Option Str := none
  dateOfBirth : Option JsDate := none
  nationality : Option Str := none
deriving DecidableEq, Repr

namespace PlayerDeduplicationService

/-- `MatchType`. -/
inductive MatchTy
  | EXACT_MATCH
  | POTENTIAL_DUPLICATE
  | NO_MATCH
deriving DecidableEq, Repr

/-- `PlayerDeduplicationResult`. -/
structure DedupResult where
  matchType : MatchTy
  existingPlayer : Option Player
  similarityScore : ℚ
  isDuplicate : Bool
  matchedFields : List String
deriving DecidableEq, Repr

/-- `FUZZY_THRESHOLD = 75.0`. -/
def FUZZY_THRESHOLD : ℚ := 75

/-- Suffix test of the first height regex (digits, optional whitespace,
then one of: the word inches, the word in, a double quote, or two
apostrophes).  The word alternatives succeed exactly when the text
continues with the two letters i n, case-insensitively; the double quote
is character 34 and the apostrophe character 39. -/
def inchesSuffixOk (s : Str) : Bool :=
  match s with
  | a :: b :: _ =>
    (jsLowerChar a = 'i' ∧ jsLowerChar b = 'n') ∨ a = Char.ofNat 34 ∨
      (a = Char.ofNat 39 ∧ b = Char.ofNat 39)
  | [a] => a = Char.ofNat 34
  | [] => false

/-- Scan for the first position where the first height regex matches (a
digit run, optional whitespace, then an inches suffix), returning the value
of the captured digit run. -/
def inchesMatch : Str → Option Nat
  | [] => none
  | c :: cs =>
    if isDigitC c then
      let run := (c :: cs).takeWhile isDigitC
      let rest := (c :: cs).dropWhile isDigitC
      if inchesSuffixOk (rest.dropWhile isWs) then some (digitsToNat run)
      else inchesMatch cs
    else inchesMatch cs

/-- Leftmost match of the feet-and-inches regex (a digit run, then a
greedy run of apostrophes and whitespace, then an optional second digit
run): the first digit run is the feet capture and the second, when present,
the inches capture, defaulting to zero. -/
def feetInches : Str → Option Nat
  | [] => none
  | c :: cs =>
    if isDigitC c then
      let feet := (c :: cs).takeWhile isDigitC
      let rest :=
        ((c :: cs).dropWhile isDigitC).dropWhile
          (fun x => x = Char.ofNat 39 || isWs x)
      let inches := rest.takeWhile isDigitC
      some (digitsToNat feet * 12 + digitsToNat inches)
    else feetInches cs

/-- The inner `normalizeHeight` of `compareHeight`: try the inches regex,
then the feet-and-inches regex, else `null`. -/
def normalizeHeight (h : Str) : Option Nat :=
  match inchesMatch h with
  | some n => some n
  | none => feetInches h

/-- `compareHeight(height1, height2)`.  The guard `if (h1 && h2)` is JS
truthiness: it takes the numeric path only when both parses succeeded *and*
neither value is 0. -/
def compareHeight (height1 height2 : Str) : ℚ :=
  match normalizeHeight height1, normalizeHeight height2 with
  | some h1, some h2 =>
    if h1 ≠ 0 ∧ h2 ≠ 0 then
      let diff : Nat := ((h1 : Int) - (h2 : Int)).natAbs
      if diff ≤ 1 then 100 else if diff ≤ 3 then 80 else 0
    else StringSimilarity.compare height1 height2
  | _, _ => StringSimilarity.compare height1 height2

/-- Per-field weights of `calculatePlayerSimilarity`. -/
def wFirstName : ℚ := 20
/-- Weight of `lastName`. -/
def wLastName : ℚ := 20
/-- Weight of `dob`. -/
def wDob : ℚ := 20
/-- Weight of `nationality`. -/
def wNationality : ℚ := 15
/-- Weight of `height`. -/
def wHeight : ℚ := 10
/-- Weight of `email`. -/
def wEmail : ℚ := 10
/-- Weight of `phone`. -/
def wPhone : ℚ := 5

/-- Date-of-birth block of `calculatePlayerSimilarity` (score contribution
and pushed matched-field names); both branches of the absence check add
`wDob` to the running weight, so only the score part varies. -/
def dobPart (c : Candidate) (p : Player) : ℚ × List String :=
  match c.dateOfBirth, p.dateOfBirth with
  | some d1, some d2 =>
    if d1.time = d2.time then (100 * wDob, ["dateOfBirth"])
    else if d1.year = d2.year then (50 * wDob, ["birthYear"])
    else (0, [])
  | _, _ => (0, [])

/-- Nationality block of `calculatePlayerSimilarity`: when both sides are
present the field name is pushed unconditionally ("count as checked") and
`nationality_match` is pushed when the score reaches 90. -/
def natPart (c : Candidate) (p : Player) : ℚ × List String :=
  match c.nationality, p.nationality with
  | some n1, some n2 =>
    let natScore := StringSimilarity.compare n1 n2
    (natScore * wNationality,
      "nationality" :: if natScore ≥ 90 then ["nationality_match"] else [])
  | _, _ => (0, [])

/-- Email block of `calculatePlayerSimilarity`. -/
def emailPart (c : Candidate) (p : Player) : ℚ × List String :=
  match c.email, p.email with
  | some e1, some e2 =>
    let eScore : ℚ := if jsLower e1 = jsLower e2 then 100 else 0
    (eScore * wEmail, if eScore = 100 then ["email"] else [])
  | _, _ => (0, [])

/-- Height block of `calculatePlayerSimilarity`. -/
def heightPart (c : Candidate) (p : Player) : ℚ × List String :=
  match c.height, p.height with
  | some h1, some h2 =>
    let hScore := compareHeight h1 h2
    (hScore * wHeight, if hScore ≥ 90 then ["height"] else [])
  | _, _ => (0, [])

/-- Phone block of `calculatePlayerSimilarity`. -/
def phonePart (c : Candidate) (p : Player) : ℚ × List String :=
  match c.phone, p.phone with
  | some p1, some p2 =>
    let pScore : ℚ :=
      if p1.filter isDigitC = p2.filter isDigitC then 100 else 0
    (pScore * wPhone, if pScore = 100 then ["phone"] else [])
  | _, _ => (0, [])

/-- `calculatePlayerSimilarity(candidate, existingPlayer)`: sequentially
accumulates `score * weight` into `totalScore` and the weight into
`totalWeight` for each field — the `else` branch of every optional field
still adds the weight, so `totalWeight` is the full weight sum — and
collects `matchedFields` in push order. -/
def calculatePlayerSimilarity (c : Candidate) (p : Player) :
    ℚ × List String :=
  let fnScore := StringSimilarity.compare c.firstName p.firstName
  let lnScore := StringSimilarity.compare c.lastName p.lastName
  let totalScore :=
    fnScore * wFirstName + lnScore * wLastName + (dobPart c p).1 +
      (natPart c p).1 + (emailPart c p).1 + (heightPart c p).1 +
      (phonePart c p).1
  let totalWeight :=
    wFirstName + wLastName + wDob + wNationality + wEmail + wHeight + wPhone
  let matchedFields :=
    (if fnScore ≥ 90 then ["firstName"] else []) ++
      (if lnScore ≥ 90 then ["lastName"] else []) ++
      (dobPart c p).2 ++ (natPart c p).2 ++ (emailPart c p).2 ++
      (heightPart c p).2 ++ (phonePart c p).2
  (if totalWeight > 0 then totalScore / totalWeight else 0, matchedFields)

/-- Specification-side scorer written to the words of the claim under
scrutiny (neutral exclusion): every optional field absent on *both* sides is
excluded from both `totalScore` and `totalWeight`; a field present on
exactly one side contributes its weight with zero credit; the final
similarity is `totalScore / totalWeight` (0 when `totalWeight` is 0).  It is
compared against `calculatePlayerSimilarity`, which was translated from the
source. -/
def calculatePlayerSimilaritySpecNeutral (c : Candidate) (p : Player) : ℚ :=
  let parts : List (Option (ℚ × ℚ)) :=
    [some (StringSimilarity.compare c.firstName p.firstName, wFirstName),
      some (StringSimilarity.compare c.lastName p.lastName, wLastName),
      match c.dateOfBirth, p.dateOfBirth with
      | none, none => none
      | some d1, some d2 =>
        some
          (if d1.time = d2.time then 100
           else if d1.year = d2.year then 50 else 0, wDob)
      | _, _ => some (0, wDob),
      match c.nationality, p.nationality with
      | none, none => none
      | some n1, some n2 => some (StringSimilarity.compare n1 n2, wNationality)
      | _, _ => some (0, wNationality),
      match c.email, p.email with
      | none, none => none
      | some e1, some e2 =>
        some (if jsLower e1 = jsLower e2 then 100 else 0, wEmail)
      | _, _ => some (0, wEmail),
      match c.height, p.height with
      | none, none => none
      | some h1, some h2 => some (compareHeight h1 h2, wHeight)
      | _, _ => some (0, wHeight),
      match c.phone, p.phone with
      | none, none => none
      | some p1, some p2 =>
        some (if p1.filter isDigitC = p2.filter isDigitC then 100 else 0,
          wPhone)
      | _, _ => some (0, wPhone)]
  let counted := parts.filterMap id
  let totalScore := (counted.map fun sw => sw.1 * sw.2).sum
  let totalWeight := (counted.map fun sw => sw.2).sum
  if totalWeight > 0 then totalScore / totalWeight else 0

/-- Specification-side date-of-birth contribution to the weighted sum of
`calculatePlayerSimilarity` (weight counted even when a side is absent):
`100 * wDob` on timestamp equality, `50 * wDob` on a bare year match, 0
otherwise. -/
def dobContribution (c : Candidate) (p : Player) : ℚ :=
  match c.dateOfBirth, p.dateOfBirth with
  | some d1, some d2 =>
    if d1.time = d2.time then 100 * wDob
    else if d1.year = d2.year then 50 * wDob
    else 0
  | _, _ => 0

/-- Specification-side nationality contribution. -/
def natContribution (c : Candidate) (p : Player) : ℚ :=
  match c.nationality, p.nationality with
  | some n1, some n2 => StringSimilarity.compare n1 n2 * wNationality
  | _, _ => 0

/-- Specification-side email contribution. -/
def emailContribution (c : Candidate) (p : Player) : ℚ :=
  match c.email, p.email with
  | some e1, some e2 => (if jsLower e1 = jsLower e2 then 100 else 0) * wEmail
  | _, _ => 0

/-- Specification-side height contribution. -/
def heightContribution (c : Candidate) (p : Player) : ℚ :=
  match c.height, p.height with
  | some h1, some h2 => compareHeight h1 h2 * wHeight
  | _, _ => 0

/-- Specification-side phone contribution. -/
def phoneContribution (c : Candidate) (p : Player) : ℚ :=
  match c.phone, p.phone with
  | some p1, some p2 =>
    (if p1.filter isDigitC = p2.filter isDigitC then 100 else 0) * wPhone
  | _, _ => 0

/-- Stored record for the exact-match demonstration. -/
def exactDemoPlayer : Player :=
  { id := 7, firstName := "Ann".toList, lastName := "Lee".toList,
    email := some "a@b.c".toList, dateOfBirth := some ⟨100, 1990⟩ }

/-- Candidate for the exact-match demonstration: names differing only in
case, a different email, the same date of birth. -/
def exactDemoCandidate : Candidate :=
  { firstName := "ANN".toList, lastName := "lee".toList,
    email := some "other@d.e".toList, dateOfBirth := some ⟨100, 1990⟩ }

/-- Prisma `equals … mode: "insensitive"`. -/
def insensEq (a b : Str) : Bool := jsLower a = jsLower b

/-- Prisma `startsWith … mode: "insensitive"`. -/
def insensStartsWith (s pre : Str) : Bool :=
  (jsLower pre).isPrefixOf (jsLower s)

/-- The exact-match query predicate of `findDuplicatePlayer`:
case-insensitive equality on both names and timestamp equality on
`dateOfBirth`. -/
def exactPred (c : Candidate) (d : JsDate) (p : Player) : Bool :=
  insensEq p.firstName c.firstName && insensEq p.lastName c.lastName &&
    match p.dateOfBirth with
    | some pd => pd.time = d.time
    | none => false

/-- The fuzzy prefilter of `findDuplicatePlayer`.  Note that when the
candidate has no email the third `OR` member is the empty Prisma filter
`{}`, which matches every record. -/
def fuzzyPred (c : Candidate) (p : Player) : Bool :=
  insensStartsWith p.lastName (c.lastName.take 2) ||
    insensStartsWith p.firstName (c.firstName.take 2) ||
    (match c.email with
     | some e =>
       match p.email with
       | some pe => insensEq pe e
       | none => false
     | none => true)

/-- Best-match selection loop: keeps the first candidate whose score meets
`FUZZY_THRESHOLD` and is strictly greater than the current best. -/
def bestMatchFold (c : Candidate) (candidates : List Player) :
    Option (Player × ℚ × List String) :=
  candidates.foldl
    (fun best p =>
      let sim := calculatePlayerSimilarity c p
      if sim.1 ≥ FUZZY_THRESHOLD then
        match best with
        | none => some (p, sim.1, sim.2)
        | some b => if sim.1 > b.2.1 then some (p, sim.1, sim.2) else best
      else best)
    none

/-- `findDuplicatePlayer(candidate)` over a store of players (the Prisma
queries become list filters preserving store order; `take: 1` keeps the
first hit). -/
def findDuplicatePlayer (store : List Player) (c : Candidate) : DedupResult :=
  let exactStep : Option DedupResult :=
    match c.dateOfBirth with
    | some d =>
      match (store.filter (exactPred c d)).take 1 with
      | exactMatch :: _ =>
        some
          { matchType := MatchTy.EXACT_MATCH
            existingPlayer := some exactMatch
            similarityScore := 100
            isDuplicate := true
            matchedFields := ["firstName", "lastName", "dateOfBirth"] }
      | [] => none
    | none => none
  match exactStep with
  | some r => r
  | none =>
    let candidates := store.filter (fuzzyPred c)
    match bestMatchFold c candidates with
    | some best =>
      { matchType := MatchTy.POTENTIAL_DUPLICATE
        existingPlayer := some best.1
        similarityScore := best.2.1
        isDuplicate := true
        matchedFields := best.2.2 }
    | none =>
      { matchType := MatchTy.NO_MATCH
        existingPlayer := none
        similarityScore := 0
        isDuplicate := false
        matchedFields := [] }

end PlayerDeduplicationService

/-- A `player_team` row. -/
structure PlayerTeam where
  id : Nat
  playerId : Nat
  teamId : Nat
  jerseyNumber : Nat
  isActive : Bool
  leftAt : Option JsDate := none
deriving DecidableEq, Repr

/-- A `match_stat` row (only the fields the merge touches). -/
structure MatchStat where
  id : Nat
  playerId : Nat
  matchId : Nat
deriving DecidableEq, Repr

/-- A `match_player` (roster) row. -/
structure MatchPlayer where
  id : Nat
  playerId : Nat
  matchId : Nat
deriving DecidableEq, Repr

/-- The queryable store the services run against.  `nextId` feeds id
generation for inserted rows. -/
structure Store where
  players : List Player
  playerTeams : List PlayerTeam
  matchStats : List MatchStat
  matchPlayers : List MatchPlayer
  teams : List Nat
  nextId : Nat
deriving DecidableEq, Repr

/-- The NestJS exception kinds the player workflows raise. -/
inductive SvcError
  | notFound
  | badRequest
  | conflict
deriving DecidableEq, Repr

namespace PlayersService

open PlayerDeduplicationService

/-- Step 1 of the merge transaction, one iteration: reassign an active
membership of the duplicate to the target unless the target is already
active on that team, in which case deactivate it (`isActive: false`,
`leftAt: new Date()`). -/
def mergeTeamStep (targetId : Nat) (now : JsDate) (pts : List PlayerTeam)
    (assoc : PlayerTeam) : List PlayerTeam :=
  let targetInTeam :=
    pts.any fun pt =>
      pt.playerId = targetId && pt.teamId = assoc.teamId && pt.isActive
  if !targetInTeam then
    pts.map fun pt =>
      if pt.id = assoc.id then { pt with playerId := targetId } else pt
  else
    pts.map fun pt =>
      if pt.id = assoc.id then
        { pt with isActive := false, leftAt := some now }
      else pt

/-- Step 3 of the merge transaction, one iteration: move a roster row of the
duplicate to the target unless the target is already on the roster of
that match, in which case delete the row of the duplicate. -/
def mergeRosterStep (targetId : Nat) (mps : List MatchPlayer)
    (mp : MatchPlayer) : List MatchPlayer :=
  let targetInMatch :=
    mps.any fun e => e.matchId = mp.matchId && e.playerId = targetId
  if !targetInMatch then
    mps.map fun e =>
      if e.id = mp.id then { e with playerId := targetId } else e
  else
    mps.filter fun e => e.id ≠ mp.id

/-- The body of the `mergePlayers` transaction (steps 1–5); it is total, and
the surrounding `$transaction` would roll the store back were any step to
fail. -/
def mergeBody (s : Store) (duplicatePlayerId targetPlayerId : Nat)
    (now : JsDate) : Store :=
  let duplicateTeams :=
    s.playerTeams.filter fun pt =>
      pt.playerId = duplicatePlayerId && pt.isActive
  let pts1 := duplicateTeams.foldl (mergeTeamStep targetPlayerId now)
    s.playerTeams
  let stats2 := s.matchStats.map fun ms =>
    if ms.playerId = duplicatePlayerId then
      { ms with playerId := targetPlayerId }
    else ms
  let duplicateMatchPlayers :=
    s.matchPlayers.filter fun mp => mp.playerId = duplicatePlayerId
  let mps3 := duplicateMatchPlayers.foldl (mergeRosterStep targetPlayerId)
    s.matchPlayers
  let pts4 := pts1.filter fun pt => pt.playerId ≠ duplicatePlayerId
  let players5 := s.players.filter fun p => p.id ≠ duplicatePlayerId
  { s with
    players := players5
    playerTeams := pts4
    matchStats := stats2
    matchPlayers := mps3 }

/-- `mergePlayers(duplicatePlayerId, targetPlayerId)`: rejects a self-merge,
rejects when either id does not resolve, then runs the transactional body
and returns the projection of the target.  Every failure leaves the store
unchanged (the guards fire before any mutation; a mid-transaction failure
would be rolled back by `$transaction`). -/
def mergePlayers (s : Store) (duplicatePlayerId targetPlayerId : Nat)
    (now : JsDate) : Store × Except SvcError Player :=
  if duplicatePlayerId = targetPlayerId then (s, .error .badRequest)
  else
    match s.players.find? (fun p => p.id = duplicatePlayerId),
        s.players.find? (fun p => p.id = targetPlayerId) with
    | none, _ => (s, .error .notFound)
    | some _, none => (s, .error .notFound)
    | some _, some target =>
      (mergeBody s duplicatePlayerId targetPlayerId now, .ok target)

/-- One row of `BulkCreatePlayersForTeamDto.players`. -/
structure RowData where
  firstName : Str
  lastName : Str
  jerseyNumber : Nat
  email : Option Str := none
  height : Option Str := none
  phone : Option Str := none
  dateOfBirth : Option JsDate := none
deriving DecidableEq, Repr

/-- `BulkCreatePlayersResponseDto` (duplicate matches keep the matched
id of the matched player and the reported similarity). -/
structure BulkResult where
  created : Nat
  duplicates : Nat
  playersOut : List Nat
  duplicateMatches : List (Nat × ℚ)
deriving DecidableEq, Repr

/-- Insert a new `Player` row built from a bulk row (ids come from
`nextId`). -/
def createPlayerFromRow (s : Store) (row : RowData) : Store × Player :=
  let p : Player :=
    { id := s.nextId
      firstName := row.firstName
      lastName := row.lastName
      email := row.email
      phone := row.phone
      height := row.height
      nationality := none
      dateOfBirth := row.dateOfBirth }
  ({ s with players := s.players ++ [p], nextId := s.nextId + 1 }, p)

/-- Insert a `player_team` row. -/
def createMembership (s : Store) (playerId teamId jerseyNumber : Nat) :
    Store :=
  { s with
    playerTeams :=
      s.playerTeams ++
        [{ id := s.nextId, playerId := playerId, teamId := teamId,
           jerseyNumber := jerseyNumber, isActive := true }]
    nextId := s.nextId + 1 }

/-- One iteration of the `bulkCreateForTeam` transaction loop: dedup check,
link-or-create (with the email fallback to the existing row), then the team
assignment.  The dedup service queries `this.prisma` — a connection outside
the surrounding `$transaction` — so it sees `basePlayers`, the committed
player set from before the transaction, and never the uncommitted rows
created earlier in the batch; the email lookup and the create, by contrast,
run on `tx` and use the threaded store. -/
def bulkRowStep (teamId : Nat) (basePlayers : List Player)
    (st : Store × BulkResult) (row : RowData) : Store × BulkResult :=
  let s := st.1
  let acc := st.2
  let duplicateCheck :=
    findDuplicatePlayer basePlayers
      { firstName := row.firstName
        lastName := row.lastName
        email := row.email
        height := row.height
        phone := row.phone
        dateOfBirth := row.dateOfBirth }
  let chosen : Store × BulkResult × Player :=
    match duplicateCheck.existingPlayer, duplicateCheck.isDuplicate with
    | some existing, true =>
      (s,
        { acc with
          duplicates := acc.duplicates + 1
          duplicateMatches :=
            acc.duplicateMatches ++
              [(existing.id, duplicateCheck.similarityScore)] },
        existing)
    | _, _ =>
      match row.email with
      | some e =>
        match s.players.find? (fun p => p.email = some e) with
        | some existingEmail =>
          (s, { acc with duplicates := acc.duplicates + 1 }, existingEmail)
        | none =>
          let cr := createPlayerFromRow s row
          (cr.1, { acc with created := acc.created + 1 }, cr.2)
      | none =>
        let cr := createPlayerFromRow s row
        (cr.1, { acc with created := acc.created + 1 }, cr.2)
  let s2 := createMembership chosen.1 chosen.2.2.id teamId row.jerseyNumber
  (s2,
    { chosen.2.1 with
      playersOut := chosen.2.1.playersOut ++ [chosen.2.2.id] })

/-- `bulkCreateForTeam(bulkDto)`: verifies the team, rejects a request that
repeats a jersey number (`BadRequestException`), rejects when any requested
jersey is already active on the team (`ConflictException`), then processes
the rows in one transaction. -/
def bulkCreateForTeam (s : Store) (teamId : Nat) (rows : List RowData) :
    Store × Except SvcError BulkResult :=
  if teamId ∉ s.teams then (s, .error .notFound)
  else
    let jerseyNumbers := rows.map (·.jerseyNumber)
    let duplicateJerseys :=
      jerseyNumbers.enum.filter fun x =>
        jerseyNumbers.indexOf x.2 ≠ x.1
    if duplicateJerseys.length > 0 then (s, .error .badRequest)
    else
      let existingJerseys :=
        s.playerTeams.filter fun pt =>
          pt.teamId = teamId && pt.jerseyNumber ∈ jerseyNumbers &&
            pt.isActive
      if existingJerseys.length > 0 then (s, .error .conflict)
      else
        let out :=
          rows.foldl (bulkRowStep teamId s.players)
            (s, { created := 0, duplicates := 0, playersOut := [],
                  duplicateMatches := [] })
        (out.1, .ok out.2)

/-- One parsed spreadsheet row of `processBulkUpload`, after the
`row["First Name"] || …` header aliasing, `String(…)` coercions and
`parseInt` have produced the candidate fields (the xlsx layer itself is out
of scope).  A JS-falsy cell (missing, empty string, numeric 0 for the
jersey) is `none` for the name fields; the jersey keeps a parsed 0 so that
the later truthiness checks can be modelled faithfully. -/
structure RowUpload where
  firstName : Option Str := none
  lastName : Option Str := none
  email : Option Str := none
  height : Option Str := none
  phone : Option Str := none
  dateOfBirth : Option JsDate := none
  nationality : Option Str := none
  jerseyNumber : Option Nat := none
deriving DecidableEq, Repr

/-- What became of a reported duplicate row. -/
inductive UploadAction
  | SKIPPED
  | LINKED
  | ALREADY_IN_TEAM
deriving DecidableEq, Repr

/-- An entry of the `errors` list of the upload.  `emailTaken` is the
message of the Prisma unique-constraint failure (`player_email_key`) that
`player.create` raises for an already-stored email and that the per-row
catch records. -/
inductive UploadErr
  | missingName
  | jerseyTaken (n : Nat)
  | emailTaken (e : Str)
deriving DecidableEq, Repr

/-- One entry of the `details` list of the upload. -/
structure UploadDetail where
  row : Nat
  status : PlayerDeduplicationService.MatchTy
  existingPlayerId : Nat
  action : UploadAction
deriving DecidableEq, Repr

/-- The result object of `processBulkUpload`. -/
structure UploadResult where
  totalProcessed : Nat
  created : Nat
  duplicatesFound : Nat
  errors : List (Nat × UploadErr)
  details : List UploadDetail
deriving DecidableEq, Repr

/-- Insert a new `Player` row built from an upload row. -/
def createPlayerFromUpload (s : Store) (c : Candidate) : Store × Player :=
  let p : Player :=
    { id := s.nextId
      firstName := c.firstName
      lastName := c.lastName
      email := c.email
      phone := c.phone
      height := c.height
      nationality := c.nationality
      dateOfBirth := c.dateOfBirth }
  ({ s with players := s.players ++ [p], nextId := s.nextId + 1 }, p)

/-- One iteration of the `processBulkUpload` row loop: validate names, run
the dedup check, then either report/link the duplicate or create a new
player, with per-row jersey checks that only append to `errors` and never
abort the batch.  The one state-determined failure inside the row body is
`player.create` violating the unique index on `player.email`; the
surrounding per-row `try/catch` converts it into an `errors` entry, which
is modelled by the explicit email check guarding the create. -/
def uploadRowStep (teamId : Nat) (st : Store × UploadResult)
    (ir : Nat × RowUpload) : Store × UploadResult :=
  let s := st.1
  let acc := st.2
  let rowNumber := ir.1 + 2
  let row := ir.2
  match row.firstName, row.lastName with
  | some fn, some ln =>
    let candidate : Candidate :=
      { firstName := jsTrim fn
        lastName := jsTrim ln
        email := row.email.map jsTrim
        height := row.height
        phone := row.phone
        dateOfBirth := row.dateOfBirth
        nationality := row.nationality.map jsTrim }
    let jerseyTruthy := row.jerseyNumber.getD 0 ≠ 0
    let jersey := row.jerseyNumber.getD 0
    let duplicateCheck :=
      PlayerDeduplicationService.findDuplicatePlayer s.players candidate
    match duplicateCheck.existingPlayer,
        decide (duplicateCheck.matchType ≠
          PlayerDeduplicationService.MatchTy.NO_MATCH) with
    | some existing, true =>
      let acc1 :=
        { acc with
          duplicatesFound := acc.duplicatesFound + 1
          details :=
            acc.details ++
              [{ row := rowNumber, status := duplicateCheck.matchType,
                 existingPlayerId := existing.id,
                 action := UploadAction.SKIPPED }] }
      if jerseyTruthy then
        let existingJersey :=
          s.playerTeams.any fun pt =>
            pt.teamId = teamId && pt.jerseyNumber = jersey && pt.isActive
        if !existingJersey then
          let alreadyInTeam :=
            s.playerTeams.any fun pt =>
              pt.teamId = teamId && pt.playerId = existing.id && pt.isActive
          if !alreadyInTeam then
            (PlayersService.createMembership s existing.id teamId jersey,
              { acc1 with
                details :=
                  acc.details ++
                    [{ row := rowNumber, status := duplicateCheck.matchType,
                       existingPlayerId := existing.id,
                       action := UploadAction.LINKED }] })
          else
            (s,
              { acc1 with
                details :=
                  acc.details ++
                    [{ row := rowNumber, status := duplicateCheck.matchType,
                       existingPlayerId := existing.id,
                       action := UploadAction.ALREADY_IN_TEAM }] })
        else
          (s,
            { acc1 with
              errors :=
                acc1.errors ++ [(rowNumber, UploadErr.jerseyTaken jersey)] })
      else (s, acc1)
    | _, _ =>
      if jerseyTruthy &&
          s.playerTeams.any (fun pt =>
            pt.teamId = teamId && pt.jerseyNumber = jersey &&
              pt.isActive) then
        (s,
          { acc with
            errors :=
              acc.errors ++ [(rowNumber, UploadErr.jerseyTaken jersey)] })
      else
        match candidate.email with
        | some e =>
          if s.players.any (fun p => p.email = some e) then
            -- `player.create` raises the unique-email violation; the
            -- per-row catch records it and the row is aborted
            (s,
              { acc with
                errors := acc.errors ++ [(rowNumber, UploadErr.emailTaken e)] })
          else
            let cr := createPlayerFromUpload s candidate
            let s2 :=
              if jerseyTruthy then
                PlayersService.createMembership cr.1 cr.2.id teamId jersey
              else cr.1
            (s2, { acc with created := acc.created + 1 })
        | none =>
          let cr := createPlayerFromUpload s candidate
          let s2 :=
            if jerseyTruthy then
              PlayersService.createMembership cr.1 cr.2.id teamId jersey
            else cr.1
          (s2, { acc with created := acc.created + 1 })
  | _, _ =>
    (s,
      { acc with
        errors := acc.errors ++ [(rowNumber, UploadErr.missingName)] })

/-- `processBulkUpload(teamId, file)` from the parsed rows on: verify the
team, then fold the row loop over the data rows; row-level conflicts land in
`errors` and never abort the call. -/
def processBulkUpload (s : Store) (teamId : Nat) (rows : List RowUpload) :
    Store × Except SvcError UploadResult :=
  if teamId ∉ s.teams then (s, .error .notFound)
  else
    let out :=
      rows.enum.foldl (uploadRowStep teamId)
        (s,
          { totalProcessed := rows.length, created := 0,
            duplicatesFound := 0, errors := [], details := [] })
    (out.1, .ok out.2)

/-- Demonstration store for the jersey-conflict scenarios: jersey 5 is
already active on team 1. -/
def jerseyDemoStore : Store :=
  { players := [],
    playerTeams :=
      [{ id := 1, playerId := 50, teamId := 1, jerseyNumber := 5,
         isActive := true }],
    matchStats := [], matchPlayers := [], teams := [1], nextId := 100 }

/-- Three parsed upload rows; the second requests the taken jersey 5. -/
def jerseyDemoUploadRows : List RowUpload :=
  [{ firstName := some "Al".toList, lastName := some "Br".toList,
     email := some "a@x".toList, jerseyNumber := some 4 },
   { firstName := some "Cd".toList, lastName := some "Df".toList,
     email := some "b@x".toList, jerseyNumber := some 5 },
   { firstName := some "Ef".toList, lastName := some "Gh".toList,
     email := some "c@x".toList, jerseyNumber := some 6 }]

/-- The same three rows shaped for `bulkCreateForTeam`. -/
def jerseyDemoBulkRows : List RowData :=
  [{ firstName := "Al".toList, lastName := "Br".toList,
     jerseyNumber := 4, email := some "a@x".toList },
   { firstName := "Cd".toList, lastName := "Df".toList,
     jerseyNumber := 5, email := some "b@x".toList },
   { firstName := "Ef".toList, lastName := "Gh".toList,
     jerseyNumber := 6, email := some "c@x".toList }]

/-- Demonstration store for the merge scenario: the duplicate (id 1) holds
one active membership, one stat row and one roster row; the target is
id 2. -/
def mergeDemoStore : Store :=
  { players :=
      [{ id := 1, firstName := "Ann".toList, lastName := "Lee".toList },
       { id := 2, firstName := "Ann".toList,
         lastName := "Leigh".toList }],
    playerTeams :=
      [{ id := 10, playerId := 1, teamId := 1, jerseyNumber := 5,
         isActive := true }],
    matchStats := [{ id := 20, playerId := 1, matchId := 100 }],
    matchPlayers := [{ id := 30, playerId := 1, matchId := 100 }],
    teams := [1], nextId := 50 }

/-- The merge target record of the demonstration. -/
def mergeDemoTarget : Player :=
  { id := 2, firstName := "Ann".toList, lastName := "Leigh".toList }

/-- Store state after merging player 1 into player 2: everything
reassigned, the duplicate gone. -/
def mergeDemoStoreAfter : Store :=
  { players := [mergeDemoTarget],
    playerTeams :=
      [{ id := 10, playerId := 2, teamId := 1, jerseyNumber := 5,
         isActive := true }],
    matchStats := [{ id := 20, playerId := 2, matchId := 100 }],
    matchPlayers := [{ id := 30, playerId := 2, matchId := 100 }],
    teams := [1], nextId := 50 }

end PlayersService

/-! ### Theorems -/

namespace StringSimilarity

theorem min_add_right_nat (a b c : Nat) :
    min a b + c = min (a + c) (b + c) := by
  omega

theorem levSpec_nil_left (ys : Str) : levSpec [] ys = ys.length := by
  rw [levSpec]

theorem levSpec_nil_right : ∀ xs : Str, levSpec xs [] = xs.length
  | [] => by rw [levSpec]
  | _ :: _ => by rw [levSpec]

theorem levSpec_cons_cons (x y : Char) (xs ys : Str) :
    levSpec (x :: xs) (y :: ys) =
      min (levSpec xs (y :: ys) + 1)
        (min (levSpec (x :: xs) ys + 1)
          (levSpec xs ys + if x = y then 0 else 1)) := by
  rw [levSpec]

set_option maxHeartbeats 2000000 in
/-- The front-peeling recurrence `levSpec` also satisfies the corresponding
recurrence on the last characters of its arguments. -/
theorem levSpec_snoc (x y : Char) :
    ∀ (xs ys : Str),
      levSpec (xs ++ [x]) (ys ++ [y]) =
        min (levSpec xs (ys ++ [y]) + 1)
          (min (levSpec (xs ++ [x]) ys + 1)
            (levSpec xs ys + if x = y then 0 else 1))
  | [], [] => by
    simp only [List.nil_append, levSpec_cons_cons, levSpec_nil_left,
      levSpec_nil_right]
  | [], b :: bs => by
    have ih := levSpec_snoc x y [] bs
    simp only [List.nil_append, List.cons_append] at ih ⊢
    rw [levSpec_cons_cons, ih]
    simp only [levSpec_nil_left, levSpec_cons_cons, List.length_append,
      List.length_cons, List.length_nil]
    omega
  | a :: as, [] => by
    have ih := levSpec_snoc x y as []
    simp only [List.nil_append, List.cons_append] at ih ⊢
    rw [levSpec_cons_cons, ih]
    simp only [levSpec_nil_right, levSpec_cons_cons, List.length_append,
      List.length_cons, List.length_nil]
    omega
  | a :: as, b :: bs => by
    have ih1 := levSpec_snoc x y as (b :: bs)
    have ih2 := levSpec_snoc x y (a :: as) bs
    have ih3 := levSpec_snoc x y as bs
    simp only [List.cons_append] at ih1 ih2 ih3 ⊢
    rw [levSpec_cons_cons, ih1, ih2, ih3]
    simp only [levSpec_cons_cons]
    generalize levSpec as (b :: (bs ++ [y])) = A1
    generalize levSpec (as ++ [x]) (b :: bs) = A2
    generalize levSpec as (b :: bs) = A3
    generalize levSpec (a :: as) (bs ++ [y]) = B1
    generalize levSpec (a :: (as ++ [x])) bs = B2
    generalize levSpec (a :: as) bs = B3
    generalize levSpec as (bs ++ [y]) = C1
    generalize levSpec (as ++ [x]) bs = C2
    generalize levSpec as bs = C3
    generalize (if x = y then (0 : Nat) else 1) = cxy
    generalize (if a = b then (0 : Nat) else 1) = cab
    simp only [min_add_right_nat]
    simp [Nat.min_assoc, Nat.min_comm, Nat.min_left_comm, Nat.add_assoc,
      Nat.add_comm, Nat.add_left_comm]
termination_by xs ys => xs.length + ys.length

/-- Edit distance is invariant under reversing both strings. -/
theorem levSpec_rev : ∀ (a b : Str), levSpec a.reverse b.reverse = levSpec a b
  | [], b => by
    simp [levSpec_nil_left, List.length_reverse]
  | a :: as, [] => by
    simp [levSpec_nil_right, List.length_reverse]
  | x :: xs, y :: ys => by
    have ih1 := levSpec_rev xs (y :: ys)
    have ih2 := levSpec_rev (x :: xs) ys
    have ih3 := levSpec_rev xs ys
    rw [List.reverse_cons, List.reverse_cons, levSpec_snoc,
      ← List.reverse_cons y ys, ← List.reverse_cons x xs, ih1, ih2, ih3,
      levSpec_cons_cons]
termination_by a b => a.length + b.length

theorem take_succ_reverse (l : Str) (i : Nat) (h : i < l.length) :
    (l.take (i + 1)).reverse = l.getD i ' ' :: (l.take i).reverse := by
  rw [List.take_succ]
  simp [List.getD, List.get?_eq_getElem?, List.getElem?_eq_getElem h]

/-- The DP matrix cell `(i, j)` holds the `levSpec` distance between the
reversed length-`i` and length-`j` prefixes. -/
theorem levCell_eq_levSpec (s1 s2 : Str) :
    ∀ (i j : Nat), i ≤ s1.length → j ≤ s2.length →
      levCell s1 s2 i j = levSpec ((s1.take i).reverse) ((s2.take j).reverse)
  | 0, j, _, hj => by
    simp [levCell, levSpec_nil_left, Nat.min_eq_left hj]
  | i + 1, 0, hi, _ => by
    simp [levCell, levSpec_nil_right, Nat.min_eq_left hi]
  | i + 1, j + 1, hi, hj => by
    have hi' : i < s1.length := hi
    have hj' : j < s2.length := hj
    have ih1 := levCell_eq_levSpec s1 s2 i (j + 1) (le_of_lt hi') hj
    have ih2 := levCell_eq_levSpec s1 s2 (i + 1) j hi (le_of_lt hj')
    have ih3 := levCell_eq_levSpec s1 s2 i j (le_of_lt hi') (le_of_lt hj')
    rw [levCell, take_succ_reverse s1 i hi', take_succ_reverse s2 j hj',
      levSpec_cons_cons, ← take_succ_reverse s1 i hi',
      ← take_succ_reverse s2 j hj', ← ih1, ← ih2, ← ih3]
termination_by i j => (i, j)

/-- The iterative DP of the source computes exactly the textbook Levenshtein
recurrence. -/
theorem levenshteinDistance_eq_levSpec (s1 s2 : Str) :
    levenshteinDistance s1 s2 = levSpec s1 s2 := by
  rw [levenshteinDistance,
    levCell_eq_levSpec s1 s2 s1.length s2.length le_rfl le_rfl,
    List.take_length, List.take_length, levSpec_rev]

end StringSimilarity

/-- `compare` is reflexively 100: `jaroWinkler` short-circuits on syntactic
equality before its empty-string check, and `compare` takes the maximum of
the two kernels. -/
theorem compare_refl (s : Str) : StringSimilarity.compare s s = 100 := by
  show StringSimilarity.similarity (StringSimilarity.normalize s)
      (StringSimilarity.normalize s) ⊔
      StringSimilarity.jaroWinkler (StringSimilarity.normalize s)
        (StringSimilarity.normalize s) = 100
  have hjw : StringSimilarity.jaroWinkler (StringSimilarity.normalize s)
      (StringSimilarity.normalize s) = 100 := by
    unfold StringSimilarity.jaroWinkler
    simp
  rw [hjw]
  unfold StringSimilarity.similarity
  by_cases h : (StringSimilarity.normalize s).isEmpty
  · simp [h]
  · simp [h]

/-- C9: `compare(s, s) = 100` for every string `s`, including the empty
string and strings whose normalization is empty. -/
theorem compare_self_eq_hundred (s : Str) :
    StringSimilarity.compare s s = 100 := compare_refl s

/-- C7 counterexample: on two equal empty strings `similarity` returns 0,
not 100 — the falsy-input check precedes the equality check. -/
theorem similarity_empty_empty_zero :
    StringSimilarity.similarity [] [] = 0 ∧
      StringSimilarity.similarity [] [] ≠ 100 := by
  have h : StringSimilarity.similarity [] [] = 0 := by
    unfold StringSimilarity.similarity
    simp
  refine ⟨h, by rw [h]; norm_num⟩

/-- C7 (amended): `similarity` returns 0 whenever either input is empty —
including two equal empty inputs — 100 on equal nonempty inputs, and
otherwise `(maxLen - d) / maxLen * 100` where `d` is the textbook
Levenshtein distance (`levSpec`) of the lowercased, trimmed inputs and
`maxLen` the longer raw length. -/
theorem similarity_characterization :
    (∀ a b : Str, a = [] ∨ b = [] → StringSimilarity.similarity a b = 0) ∧
    (∀ a b : Str, a ≠ [] → a = b → StringSimilarity.similarity a b = 100) ∧
    (∀ a b : Str, a ≠ [] → b ≠ [] → a ≠ b →
      StringSimilarity.similarity a b =
        ((max a.length b.length : Nat) -
            (StringSimilarity.levSpec (jsTrim (jsLower a))
              (jsTrim (jsLower b)) : ℚ)) /
          ((max a.length b.length : Nat) : ℚ) * 100) := by
  refine ⟨?_, ?_, ?_⟩
  · intro a b h
    unfold StringSimilarity.similarity
    rcases h with h | h <;> simp [h]
  · intro a b ha hab
    subst hab
    unfold StringSimilarity.similarity
    simp [List.isEmpty_iff, ha]
  · intro a b ha hb hab
    unfold StringSimilarity.similarity
    have hpos : (0 : ℚ) < (a.length : ℚ) ⊔ (b.length : ℚ) := by
      have h0 : 0 < a.length := List.length_pos.mpr ha
      have h1 : (0 : ℚ) < (a.length : ℚ) := by exact_mod_cast h0
      exact lt_of_lt_of_le h1 (le_sup_left)
    have hmax2 : ((a.length : ℚ) ⊔ (b.length : ℚ)) ≠ 0 := ne_of_gt hpos
    simp [List.isEmpty_iff, ha, hb, hab, hmax2, Nat.cast_max,
      StringSimilarity.levenshteinDistance_eq_levSpec]

/-- C7 amended, witness: the characterization applied to `"kitten"` /
`"sitting"`. -/
theorem similarity_characterization_witness :
    StringSimilarity.similarity ("kitten".toList) ("sitting".toList) =
      ((max ("kitten".toList).length ("sitting".toList).length : Nat) -
          (StringSimilarity.levSpec (jsTrim (jsLower "kitten".toList))
            (jsTrim (jsLower "sitting".toList)) : ℚ)) /
        ((max ("kitten".toList).length ("sitting".toList).length : Nat) : ℚ) *
        100 :=
  similarity_characterization.2.2 "kitten".toList "sitting".toList
    (by decide) (by decide) (by decide)

namespace PlayerDeduplicationService

theorem dobPart_fst (c : Candidate) (p : Player) :
    (dobPart c p).1 = dobContribution c p := by
  unfold dobPart dobContribution
  rcases c.dateOfBirth with _ | d1 <;> rcases p.dateOfBirth with _ | d2 <;>
    simp <;> split_ifs <;> rfl

theorem natPart_fst (c : Candidate) (p : Player) :
    (natPart c p).1 = natContribution c p := by
  unfold natPart natContribution
  rcases c.nationality with _ | n1 <;> rcases p.nationality with _ | n2 <;>
    simp

theorem emailPart_fst (c : Candidate) (p : Player) :
    (emailPart c p).1 = emailContribution c p := by
  unfold emailPart emailContribution
  rcases c.email with _ | e1 <;> rcases p.email with _ | e2 <;> simp

theorem heightPart_fst (c : Candidate) (p : Player) :
    (heightPart c p).1 = heightContribution c p := by
  unfold heightPart heightContribution
  rcases c.height with _ | h1 <;> rcases p.height with _ | h2 <;> simp

theorem phonePart_fst (c : Candidate) (p : Player) :
    (phonePart c p).1 = phoneContribution c p := by
  unfold phonePart phoneContribution
  rcases c.phone with _ | p1 <;> rcases p.phone with _ | p2 <;> simp

/-- The score of `calculatePlayerSimilarity` as a weighted sum over the
constant denominator 100. -/
theorem calculatePlayerSimilarity_fst (c : Candidate) (p : Player) :
    (calculatePlayerSimilarity c p).1 =
      (StringSimilarity.compare c.firstName p.firstName * wFirstName +
        StringSimilarity.compare c.lastName p.lastName * wLastName +
        dobContribution c p + natContribution c p + emailContribution c p +
        heightContribution c p + phoneContribution c p) / 100 := by
  unfold calculatePlayerSimilarity
  rw [dobPart_fst, natPart_fst, emailPart_fst, heightPart_fst, phonePart_fst]
  norm_num [wFirstName, wLastName, wDob, wNationality, wEmail, wHeight,
    wPhone]

/-- C1 (amended): no field is ever neutral-excluded — `totalWeight` is the
constant 100 (the sum of all seven weights), a field absent on either side
contributes zero score but full weight, and the final similarity is the
per-field contribution sum divided by 100. -/
theorem calculatePlayerSimilarity_weighted_mean (c : Candidate) (p : Player) :
    (calculatePlayerSimilarity c p).1 =
      (StringSimilarity.compare c.firstName p.firstName * wFirstName +
        StringSimilarity.compare c.lastName p.lastName * wLastName +
        dobContribution c p + natContribution c p + emailContribution c p +
        heightContribution c p + phoneContribution c p) / 100 :=
  calculatePlayerSimilarity_fst c p

/-- C1 counterexample: a candidate and a stored record with identical names
and no optional fields at all.  Under the claimed neutral exclusion the
score would be 100 (only the two name fields would be weighted); the code
scores 40 because every absent optional field still contributes its full
weight to `totalWeight` with zero credit. -/
theorem neutral_exclusion_counterexample :
    (calculatePlayerSimilarity
        { firstName := "ann".toList, lastName := "lee".toList }
        { id := 1, firstName := "ann".toList, lastName := "lee".toList }).1
      = 40 ∧
    calculatePlayerSimilaritySpecNeutral
        { firstName := "ann".toList, lastName := "lee".toList }
        { id := 1, firstName := "ann".toList, lastName := "lee".toList }
      = 100 ∧
    (calculatePlayerSimilarity
        { firstName := "ann".toList, lastName := "lee".toList }
        { id := 1, firstName := "ann".toList, lastName := "lee".toList }).1
      ≠
      calculatePlayerSimilaritySpecNeutral
        { firstName := "ann".toList, lastName := "lee".toList }
        { id := 1, firstName := "ann".toList, lastName := "lee".toList } := by
  have h1 : (calculatePlayerSimilarity
      { firstName := "ann".toList, lastName := "lee".toList }
      { id := 1, firstName := "ann".toList, lastName := "lee".toList }).1
      = 40 := by
    rw [calculatePlayerSimilarity_fst]
    simp [compare_refl, dobContribution, natContribution,
      emailContribution, heightContribution, phoneContribution,
      wFirstName, wLastName]
    norm_num
  have h2 : calculatePlayerSimilaritySpecNeutral
      { firstName := "ann".toList, lastName := "lee".toList }
      { id := 1, firstName := "ann".toList, lastName := "lee".toList }
      = 100 := by
    unfold calculatePlayerSimilaritySpecNeutral
    simp [compare_refl, wFirstName, wLastName]
    norm_num
  refine ⟨h1, h2, by rw [h1, h2]; norm_num⟩

end PlayerDeduplicationService


namespace PlayerDeduplicationService

theorem mem_dobPart {c : Candidate} {p : Player} {s : String}
    (h : s ∈ (dobPart c p).2) :
    (s = "dateOfBirth" ∧ ∃ d1 d2, c.dateOfBirth = some d1 ∧
      p.dateOfBirth = some d2 ∧ d1.time = d2.time) ∨
    (s = "birthYear" ∧ ∃ d1 d2, c.dateOfBirth = some d1 ∧
      p.dateOfBirth = some d2 ∧ d1.time ≠ d2.time ∧ d1.year = d2.year) := by
  unfold dobPart at h
  rcases hd1 : c.dateOfBirth with _ | d1 <;>
    rcases hd2 : p.dateOfBirth with _ | d2 <;>
    simp [hd1, hd2] at h
  split_ifs at h with h1 h2 <;> simp at h <;> subst h
  · exact Or.inl ⟨rfl, d1, d2, rfl, rfl, h1⟩
  · exact Or.inr ⟨rfl, d1, d2, rfl, rfl, h1, h2⟩

theorem mem_natPart {c : Candidate} {p : Player} {s : String}
    (h : s ∈ (natPart c p).2) :
    (s = "nationality" ∨ s = "nationality_match") ∧
      ∃ n1 n2, c.nationality = some n1 ∧ p.nationality = some n2 ∧
        (s = "nationality_match" → StringSimilarity.compare n1 n2 ≥ 90) := by
  unfold natPart at h
  rcases hn1 : c.nationality with _ | n1 <;>
    rcases hn2 : p.nationality with _ | n2 <;>
    simp [hn1, hn2] at h
  rcases h with h | h
  · subst h
    exact ⟨Or.inl rfl, n1, n2, rfl, rfl, by simp⟩
  · obtain ⟨hge, hs⟩ := h
    subst hs
    exact ⟨Or.inr rfl, n1, n2, rfl, rfl, fun _ => hge⟩

theorem nationality_mem_natPart {c : Candidate} {p : Player} {n1 n2 : Str}
    (h1 : c.nationality = some n1) (h2 : p.nationality = some n2) :
    "nationality" ∈ (natPart c p).2 := by
  unfold natPart
  simp [h1, h2]

theorem mem_emailPart {c : Candidate} {p : Player} {s : String}
    (h : s ∈ (emailPart c p).2) :
    s = "email" ∧ ∃ e1 e2, c.email = some e1 ∧ p.email = some e2 ∧
      jsLower e1 = jsLower e2 := by
  unfold emailPart at h
  rcases he1 : c.email with _ | e1 <;> rcases he2 : p.email with _ | e2 <;>
    simp [he1, he2] at h
  obtain ⟨heq, hs⟩ := h
  subst hs
  exact ⟨rfl, e1, e2, rfl, rfl, heq⟩

theorem mem_heightPart {c : Candidate} {p : Player} {s : String}
    (h : s ∈ (heightPart c p).2) :
    s = "height" ∧ ∃ h1 h2, c.height = some h1 ∧ p.height = some h2 ∧
      compareHeight h1 h2 ≥ 90 := by
  unfold heightPart at h
  rcases hh1 : c.height with _ | h1 <;> rcases hh2 : p.height with _ | h2 <;>
    simp [hh1, hh2] at h
  obtain ⟨hge, hs⟩ := h
  subst hs
  exact ⟨rfl, h1, h2, rfl, rfl, hge⟩

theorem mem_phonePart {c : Candidate} {p : Player} {s : String}
    (h : s ∈ (phonePart c p).2) :
    s = "phone" ∧ ∃ p1 p2, c.phone = some p1 ∧ p.phone = some p2 ∧
      p1.filter isDigitC = p2.filter isDigitC := by
  unfold phonePart at h
  rcases hp1 : c.phone with _ | p1 <;> rcases hp2 : p.phone with _ | p2 <;>
    simp [hp1, hp2] at h
  obtain ⟨heq, hs⟩ := h
  subst hs
  exact ⟨rfl, p1, p2, rfl, rfl, heq⟩

end PlayerDeduplicationService

namespace PlayerDeduplicationService

theorem calculatePlayerSimilarity_snd (c : Candidate) (p : Player) :
    (calculatePlayerSimilarity c p).2 =
      (if StringSimilarity.compare c.firstName p.firstName ≥ 90 then
          ["firstName"] else []) ++
        (if StringSimilarity.compare c.lastName p.lastName ≥ 90 then
          ["lastName"] else []) ++
        (dobPart c p).2 ++ (natPart c p).2 ++ (emailPart c p).2 ++
        (heightPart c p).2 ++ (phonePart c p).2 := rfl

/-- Any name found in `matchedFields` came from one of the seven field
blocks, with the block's push condition. -/
theorem mem_calculatePlayerSimilarity_snd {c : Candidate} {p : Player}
    {s : String} (h : s ∈ (calculatePlayerSimilarity c p).2) :
    (s = "firstName" ∧
        StringSimilarity.compare c.firstName p.firstName ≥ 90) ∨
    (s = "lastName" ∧
        StringSimilarity.compare c.lastName p.lastName ≥ 90) ∨
    ((s = "dateOfBirth" ∧ ∃ d1 d2, c.dateOfBirth = some d1 ∧
        p.dateOfBirth = some d2 ∧ d1.time = d2.time) ∨
      (s = "birthYear" ∧ ∃ d1 d2, c.dateOfBirth = some d1 ∧
        p.dateOfBirth = some d2 ∧ d1.time ≠ d2.time ∧
        d1.year = d2.year)) ∨
    ((s = "nationality" ∨ s = "nationality_match") ∧
      ∃ n1 n2, c.nationality = some n1 ∧ p.nationality = some n2 ∧
        (s = "nationality_match" →
          StringSimilarity.compare n1 n2 ≥ 90)) ∨
    (s = "email" ∧ ∃ e1 e2, c.email = some e1 ∧ p.email = some e2 ∧
      jsLower e1 = jsLower e2) ∨
    (s = "height" ∧ ∃ h1 h2, c.height = some h1 ∧ p.height = some h2 ∧
      compareHeight h1 h2 ≥ 90) ∨
    (s = "phone" ∧ ∃ p1 p2, c.phone = some p1 ∧ p.phone = some p2 ∧
      p1.filter isDigitC = p2.filter isDigitC) := by
  rw [calculatePlayerSimilarity_snd] at h
  simp only [List.mem_append] at h
  rcases h with ((((((h | h) | h) | h) | h) | h) | h)
  · split at h <;> simp at h
    subst h
    exact Or.inl ⟨rfl, by assumption⟩
  · split at h <;> simp at h
    subst h
    exact Or.inr (Or.inl ⟨rfl, by assumption⟩)
  · exact Or.inr (Or.inr (Or.inl (mem_dobPart h)))
  · exact Or.inr (Or.inr (Or.inr (Or.inl (mem_natPart h))))
  · exact Or.inr (Or.inr (Or.inr (Or.inr (Or.inl (mem_emailPart h)))))
  · exact Or.inr (Or.inr (Or.inr (Or.inr (Or.inr (Or.inl
      (mem_heightPart h))))))
  · exact Or.inr (Or.inr (Or.inr (Or.inr (Or.inr (Or.inr
      (mem_phonePart h))))))

/-- C8 (amended): every reported field except `nationality` met its cutoff
(90 for the `compare`-scored text fields and height, exact equality — score
100 — for email and phone, timestamp equality for `dateOfBirth`,
year-only agreement at score 50 for the partial flag `birthYear`);
`nationality`, however, is reported whenever both sides supply a value,
regardless of its comparator score, with `nationality_match` marking the
score ≥ 90 case. -/
theorem matchedFields_cutoffs (c : Candidate) (p : Player) :
    ("firstName" ∈ (calculatePlayerSimilarity c p).2 →
        StringSimilarity.compare c.firstName p.firstName ≥ 90) ∧
    ("lastName" ∈ (calculatePlayerSimilarity c p).2 →
        StringSimilarity.compare c.lastName p.lastName ≥ 90) ∧
    ("dateOfBirth" ∈ (calculatePlayerSimilarity c p).2 →
        ∃ d1 d2, c.dateOfBirth = some d1 ∧ p.dateOfBirth = some d2 ∧
          d1.time = d2.time) ∧
    ("birthYear" ∈ (calculatePlayerSimilarity c p).2 →
        ∃ d1 d2, c.dateOfBirth = some d1 ∧ p.dateOfBirth = some d2 ∧
          d1.time ≠ d2.time ∧ d1.year = d2.year) ∧
    ("email" ∈ (calculatePlayerSimilarity c p).2 →
        ∃ e1 e2, c.email = some e1 ∧ p.email = some e2 ∧
          jsLower e1 = jsLower e2) ∧
    ("height" ∈ (calculatePlayerSimilarity c p).2 →
        ∃ h1 h2, c.height = some h1 ∧ p.height = some h2 ∧
          compareHeight h1 h2 ≥ 90) ∧
    ("phone" ∈ (calculatePlayerSimilarity c p).2 →
        ∃ p1 p2, c.phone = some p1 ∧ p.phone = some p2 ∧
          p1.filter isDigitC = p2.filter isDigitC) ∧
    ("nationality_match" ∈ (calculatePlayerSimilarity c p).2 →
        ∃ n1 n2, c.nationality = some n1 ∧ p.nationality = some n2 ∧
          StringSimilarity.compare n1 n2 ≥ 90) ∧
    ("nationality" ∈ (calculatePlayerSimilarity c p).2 ↔
        c.nationality.isSome ∧ p.nationality.isSome) := by
  refine ⟨?_, ?_, ?_, ?_, ?_, ?_, ?_, ?_, ?_, ?_⟩
  · intro h
    rcases mem_calculatePlayerSimilarity_snd h with
      h | h | (h | h) | h | h | h | h <;> simp_all
  · intro h
    rcases mem_calculatePlayerSimilarity_snd h with
      h | h | (h | h) | h | h | h | h <;> simp_all
  · intro h
    rcases mem_calculatePlayerSimilarity_snd h with
      h | h | (h | h) | h | h | h | h <;> simp_all
  · intro h
    rcases mem_calculatePlayerSimilarity_snd h with
      h | h | (h | h) | h | h | h | h <;> simp_all
  · intro h
    rcases mem_calculatePlayerSimilarity_snd h with
      h | h | (h | h) | h | h | h | h <;> simp_all
  · intro h
    rcases mem_calculatePlayerSimilarity_snd h with
      h | h | (h | h) | h | h | h | h <;> simp_all
  · intro h
    rcases mem_calculatePlayerSimilarity_snd h with
      h | h | (h | h) | h | h | h | h <;> simp_all
  · intro h
    rcases mem_calculatePlayerSimilarity_snd h with
      h | h | (h | h) | h | h | h | h <;> simp_all
  · intro h
    rcases mem_calculatePlayerSimilarity_snd h with
      h | h | (h | h) | h | h | h | h <;>
      simp_all [Option.isSome_iff_exists]
  · rintro ⟨h1, h2⟩
    obtain ⟨n1, hn1⟩ := Option.isSome_iff_exists.mp h1
    obtain ⟨n2, hn2⟩ := Option.isSome_iff_exists.mp h2
    rw [calculatePlayerSimilarity_snd]
    simp only [List.mem_append]
    exact Or.inl (Or.inl (Or.inl (Or.inr (nationality_mem_natPart hn1 hn2))))

end PlayerDeduplicationService

namespace PlayerDeduplicationService

/-- C8 counterexample: with candidate nationality `"!!"` (which normalizes
to the empty string and scores 0) against stored nationality `"usa"`, the
field name `nationality` is still reported in `matchedFields` although its
comparator score 0 is far below every cutoff. -/
theorem matchedFields_nationality_counterexample :
    "nationality" ∈
      (calculatePlayerSimilarity
          { firstName := "ann".toList, lastName := "lee".toList,
            nationality := some "!!".toList }
          { id := 1, firstName := "ann".toList, lastName := "lee".toList,
            nationality := some "usa".toList }).2 ∧
      StringSimilarity.compare "!!".toList "usa".toList < 90 := by
  have hc : StringSimilarity.compare "!!".toList "usa".toList = 0 := by
    have hn1 : StringSimilarity.normalize ("!!".toList) = [] := by decide
    have hn2 : StringSimilarity.normalize ("usa".toList) = "usa".toList := by
      decide
    show max (StringSimilarity.similarity
        (StringSimilarity.normalize ("!!".toList))
        (StringSimilarity.normalize ("usa".toList)))
      (StringSimilarity.jaroWinkler
        (StringSimilarity.normalize ("!!".toList))
        (StringSimilarity.normalize ("usa".toList))) = 0
    rw [hn1, hn2]
    have h1 : StringSimilarity.similarity [] ("usa".toList) = 0 := by
      unfold StringSimilarity.similarity
      simp
    have h2 : StringSimilarity.jaroWinkler [] ("usa".toList) = 0 := by
      unfold StringSimilarity.jaroWinkler
      simp
    rw [h1, h2]
    simp
  constructor
  · rw [calculatePlayerSimilarity_snd]
    simp only [List.mem_append]
    exact Or.inl (Or.inl (Or.inl (Or.inr
      (nationality_mem_natPart rfl rfl))))
  · rw [hc]
    norm_num

/-- C8 amended, witness: for a concrete pair with both nationalities
present, `nationality` is reported. -/
theorem matchedFields_cutoffs_witness :
    "nationality" ∈
      (calculatePlayerSimilarity
          { firstName := "jo".toList, lastName := "doe".toList,
            nationality := some "usa".toList }
          { id := 2, firstName := "jo".toList, lastName := "doe".toList,
            nationality := some "usa".toList }).2 :=
  (matchedFields_cutoffs
      { firstName := "jo".toList, lastName := "doe".toList,
        nationality := some "usa".toList }
      { id := 2, firstName := "jo".toList, lastName := "doe".toList,
        nationality := some "usa".toList }).2.2.2.2.2.2.2.2.mpr
    (by constructor <;> rfl)

/-- C5 counterexample: `compareHeight` on the height written
six-apostrophe-five-quote against the string 77 inches is 0, not 100.  The
inches regex finds its leftmost match at the 5 followed by the double
quote, so the first height parses as 5 inches, the second as 77, and the
difference of 72 falls in the zero tier (the code tiers are 100 at
difference at most 1, 80 at difference at most 3, else 0 — not the claimed
tiers of 100, 95 and 85 with a linear falloff). -/
theorem compareHeight_example_counterexample :
    compareHeight ['6', Char.ofNat 39, '5', Char.ofNat 34]
        ("77 inches".toList) = 0 ∧
      (0 : ℚ) ≠ 100 := by
  have hn1 : normalizeHeight ['6', Char.ofNat 39, '5', Char.ofNat 34] =
      some 5 := by decide
  have hn2 : normalizeHeight ("77 inches".toList) = some 77 := by decide
  constructor
  · unfold compareHeight
    rw [hn1, hn2]
    norm_num
  · norm_num

/-- C5 (amended): when both heights parse to nonzero inch counts the score
tiers are 100 at an inch difference of at most 1, 80 at a difference of at
most 3 and 0 otherwise; when either side fails to parse or parses to 0 (a
JS-falsy number) the raw strings are compared with `compare`; and on the
example given by the specification the result is 0 because the height
written six-apostrophe-five-quote parses as 5 inches. -/
theorem compareHeight_characterization :
    (∀ (x y : Str) (a b : Nat), normalizeHeight x = some a →
      normalizeHeight y = some b → a ≠ 0 → b ≠ 0 →
      compareHeight x y =
        if ((a : Int) - b).natAbs ≤ 1 then 100
        else if ((a : Int) - b).natAbs ≤ 3 then 80 else 0) ∧
    (∀ x y : Str, (normalizeHeight x = none ∨ normalizeHeight x = some 0 ∨
        normalizeHeight y = none ∨ normalizeHeight y = some 0) →
      compareHeight x y = StringSimilarity.compare x y) ∧
    compareHeight ['6', Char.ofNat 39, '5', Char.ofNat 34]
      ("77 inches".toList) = 0 := by
  refine ⟨?_, ?_, ?_⟩
  · intro x y a b hx hy ha hb
    unfold compareHeight
    rw [hx, hy]
    simp [ha, hb]
  · intro x y h
    unfold compareHeight
    rcases hx : normalizeHeight x with _ | a
    · rfl
    · rcases hy : normalizeHeight y with _ | b
      · rfl
      · rw [hx, hy] at h
        simp only [reduceCtorEq, Option.some.injEq, false_or, or_false]
          at h
        have hno : ¬(a ≠ 0 ∧ b ≠ 0) := by tauto
        simp [hno]
  · have hn1 : normalizeHeight ['6', Char.ofNat 39, '5', Char.ofNat 34] =
        some 5 := by decide
    have hn2 : normalizeHeight ("77 inches".toList) = some 77 := by decide
    unfold compareHeight
    rw [hn1, hn2]
    norm_num

/-- C5 amended, witness: two parseable heights one inch apart score 100. -/
theorem compareHeight_characterization_witness :
    compareHeight ("74 in".toList) ("75 in".toList) = 100 := by
  have h := compareHeight_characterization.1 ("74 in".toList)
    ("75 in".toList) 74 75 (by decide) (by decide) (by decide) (by decide)
  rw [h]
  norm_num

/-- C2: whenever the candidate carries a date of birth and some stored
record matches it exactly (case-insensitive first and last name, equal
timestamp), `findDuplicatePlayer` classifies EXACT_MATCH with score exactly
100 and `matchedFields = [firstName, lastName, dateOfBirth]`, regardless of
every other field of either side. -/
theorem findDuplicatePlayer_exact (store : List Player) (c : Candidate)
    (d : JsDate) (p : Player) (hd : c.dateOfBirth = some d)
    (hp : p ∈ store) (hfn : insensEq p.firstName c.firstName)
    (hln : insensEq p.lastName c.lastName)
    (hdob : ∃ pd, p.dateOfBirth = some pd ∧ pd.time = d.time) :
    (findDuplicatePlayer store c).matchType = MatchTy.EXACT_MATCH ∧
      (findDuplicatePlayer store c).similarityScore = 100 ∧
      (findDuplicatePlayer store c).matchedFields =
        ["firstName", "lastName", "dateOfBirth"] := by
  have hpred : exactPred c d p = true := by
    obtain ⟨pd, h1, h2⟩ := hdob
    unfold exactPred
    simp [hfn, hln, h1, h2]
  have hne : store.filter (exactPred c d) ≠ [] :=
    List.ne_nil_of_mem (List.mem_filter.mpr ⟨hp, hpred⟩)
  unfold findDuplicatePlayer
  rw [hd]
  cases hfil : store.filter (exactPred c d) with
  | nil => exact absurd hfil hne
  | cons q qs => simp [hfil]

/-- C2 witness: a one-record store hit by a candidate differing in case and
email. -/
theorem findDuplicatePlayer_exact_witness :
    (findDuplicatePlayer [exactDemoPlayer] exactDemoCandidate).matchType =
        MatchTy.EXACT_MATCH ∧
      (findDuplicatePlayer [exactDemoPlayer]
          exactDemoCandidate).similarityScore = 100 ∧
      (findDuplicatePlayer [exactDemoPlayer]
          exactDemoCandidate).matchedFields =
        ["firstName", "lastName", "dateOfBirth"] :=
  findDuplicatePlayer_exact [exactDemoPlayer] exactDemoCandidate
    ⟨100, 1990⟩ exactDemoPlayer rfl (by simp) (by decide) (by decide)
    ⟨⟨100, 1990⟩, rfl, rfl⟩

end PlayerDeduplicationService

theorem indexOf_getElem_le (l : List Nat) :
    ∀ (i : Nat) (h : i < l.length), l.indexOf l[i] ≤ i := by
  induction l with
  | nil => intro i h; simp at h
  | cons x xs ih =>
    intro i h
    cases i with
    | zero => simp
    | succ n =>
      have hn : n < xs.length := by simpa using h
      rw [List.indexOf_cons]
      cases hbeq : x == xs[n] with
      | true => simp [List.getElem_cons_succ, hbeq]
      | false =>
        simp only [List.getElem_cons_succ, hbeq, cond_false]
        have := ih n hn
        omega

namespace PlayersService

/-- C10: when the requested rows themselves repeat a jersey number (two
distinct row positions carry the same number), `bulkCreateForTeam` fails
with the bad-request rejection before any player or membership is created —
the returned store is exactly the input store. -/
theorem bulkCreateForTeam_dup_jersey (s : Store) (teamId : Nat)
    (rows : List RowData) (i j : Nat) (hteam : teamId ∈ s.teams)
    (hij : i < j) (hj : j < rows.length)
    (heq : (rows.map (·.jerseyNumber)).getD i 0 =
      (rows.map (·.jerseyNumber)).getD j 0) :
    bulkCreateForTeam s teamId rows = (s, .error .badRequest) := by
  unfold bulkCreateForTeam
  rw [if_neg (by simp [hteam])]
  have hlen : (rows.map (·.jerseyNumber)).length = rows.length := by simp
  have hjl : j < (rows.map (·.jerseyNumber)).length := by omega
  have hil : i < (rows.map (·.jerseyNumber)).length := by omega
  have hget : (rows.map (·.jerseyNumber))[i] =
      (rows.map (·.jerseyNumber))[j] := by
    rw [← List.getD_eq_getElem (rows.map (·.jerseyNumber)) 0 hil,
      ← List.getD_eq_getElem (rows.map (·.jerseyNumber)) 0 hjl]
    exact heq
  have hidx : (rows.map (·.jerseyNumber)).indexOf
      (rows.map (·.jerseyNumber))[j] ≤ i := by
    rw [← hget]
    exact indexOf_getElem_le _ i hil
  have hje : j < (rows.map (·.jerseyNumber)).enum.length := by
    simpa using hjl
  have hmem : ((j, (rows.map (·.jerseyNumber))[j]) : Nat × Nat) ∈
      (rows.map (·.jerseyNumber)).enum.filter
        (fun x => (rows.map (·.jerseyNumber)).indexOf x.2 ≠ x.1) := by
    refine List.mem_filter.mpr ⟨?_, ?_⟩
    · have he : (rows.map (·.jerseyNumber)).enum[j] =
          (j, (rows.map (·.jerseyNumber))[j]) := List.getElem_enum ..
      rw [← he]
      exact List.getElem_mem _
    · simp only [decide_eq_true_eq]
      omega
  rw [if_pos (List.length_pos.mpr (List.ne_nil_of_mem hmem))]

/-- C10 witness: a two-row request repeating jersey 7 against a store whose
team exists. -/
theorem bulkCreateForTeam_dup_jersey_witness :
    bulkCreateForTeam
        { players := [], playerTeams := [], matchStats := [],
          matchPlayers := [], teams := [1], nextId := 10 }
        1
        [{ firstName := "a".toList, lastName := "b".toList,
           jerseyNumber := 7 },
         { firstName := "c".toList, lastName := "d".toList,
           jerseyNumber := 7 }] =
      ({ players := [], playerTeams := [], matchStats := [],
         matchPlayers := [], teams := [1], nextId := 10 },
        .error .badRequest) :=
  bulkCreateForTeam_dup_jersey _ 1 _ 0 1 (by decide) (by decide) (by decide)
    (by decide)

/-- C6: `mergePlayers` rejects a self-merge with the bad-request error,
rejects with not-found when either id fails to resolve, and every failing
outcome returns the store unchanged (the guards fire before any mutation,
and the transactional body rolls back on failure). -/
theorem mergePlayers_failure (s : Store) (dup tgt : Nat) (now : JsDate) :
    (dup = tgt → mergePlayers s dup tgt now = (s, .error .badRequest)) ∧
    (dup ≠ tgt →
      (s.players.find? (fun p => p.id = dup) = none ∨
        s.players.find? (fun p => p.id = tgt) = none) →
      mergePlayers s dup tgt now = (s, .error .notFound)) ∧
    (∀ e : SvcError, (mergePlayers s dup tgt now).2 = .error e →
      (mergePlayers s dup tgt now).1 = s) := by
  refine ⟨?_, ?_, ?_⟩
  · intro h
    unfold mergePlayers
    rw [if_pos h]
  · intro h hf
    unfold mergePlayers
    rw [if_neg h]
    rcases hf with hf | hf
    · rw [hf]
    · cases hfd : s.players.find? (fun p => p.id = dup) with
      | none => rfl
      | some pd => rw [hf]
  · intro e he
    unfold mergePlayers at he ⊢
    by_cases h : dup = tgt
    · rw [if_pos h]
    · rw [if_neg h] at he ⊢
      cases hfd : s.players.find? (fun p => p.id = dup) with
      | none => rfl
      | some pd =>
        cases hft : s.players.find? (fun p => p.id = tgt) with
        | none => rfl
        | some pt =>
          rw [hfd, hft] at he
          simp at he

/-- C6 witness: a self-merge on an empty store is rejected and leaves the
store unchanged. -/
theorem mergePlayers_failure_witness :
    mergePlayers
        { players := [], playerTeams := [], matchStats := [],
          matchPlayers := [], teams := [], nextId := 0 }
        3 3 ⟨0, 0⟩ =
      ({ players := [], playerTeams := [], matchStats := [],
         matchPlayers := [], teams := [], nextId := 0 },
        .error .badRequest) :=
  (mergePlayers_failure _ 3 3 ⟨0, 0⟩).1 rfl

end PlayersService

namespace PlayersService

theorem mergeRosterStep_pos (tgt : Nat) (cur : List MatchPlayer)
    (mp : MatchPlayer)
    (h : cur.any (fun e => e.matchId = mp.matchId && e.playerId = tgt) =
      true) :
    mergeRosterStep tgt cur mp = cur.filter (fun e => e.id ≠ mp.id) := by
  simp [mergeRosterStep, h]

theorem mergeRosterStep_neg (tgt : Nat) (cur : List MatchPlayer)
    (mp : MatchPlayer)
    (h : cur.any (fun e => e.matchId = mp.matchId && e.playerId = tgt) =
      false) :
    mergeRosterStep tgt cur mp =
      cur.map (fun e =>
        if e.id = mp.id then { e with playerId := tgt } else e) := by
  simp [mergeRosterStep, h]

/-- Invariant lemma for the roster loop of the merge (step 3): folding
`mergeRosterStep` over a list of the roster rows of the duplicate (a) leaves
untouched rows in place, (b) never resurrects an absent id, (c) moves every
processed row to the target or deletes it when the target is already on
that match's roster, and (d) preserves "the target holds at most one roster
row per match". -/
theorem mergeRosterStep_fold (dup tgt : Nat) :
    ∀ (rem cur : List MatchPlayer),
      (∀ mp ∈ rem, mp.playerId = dup) →
      (∀ mp ∈ rem, mp ∈ cur) →
      (∀ mp ∈ rem, ∀ e ∈ cur, e.id = mp.id → e = mp) →
      (rem.map (fun e => e.id)).Nodup →
      (∀ e1 ∈ cur, ∀ e2 ∈ cur, e1.playerId = tgt → e2.playerId = tgt →
        e1.matchId = e2.matchId → e1 = e2) →
      (∀ e ∈ cur, (∀ mp ∈ rem, e.id ≠ mp.id) →
          e ∈ rem.foldl (mergeRosterStep tgt) cur) ∧
      (∀ i : Nat, (∀ e ∈ cur, e.id ≠ i) →
          ∀ e ∈ rem.foldl (mergeRosterStep tgt) cur, e.id ≠ i) ∧
      (∀ mp ∈ rem,
          (∃ e ∈ rem.foldl (mergeRosterStep tgt) cur,
            e.id = mp.id ∧ e.playerId = tgt ∧ e.matchId = mp.matchId) ∨
          (∀ e ∈ rem.foldl (mergeRosterStep tgt) cur, e.id ≠ mp.id)) ∧
      (∀ e1 ∈ rem.foldl (mergeRosterStep tgt) cur,
        ∀ e2 ∈ rem.foldl (mergeRosterStep tgt) cur,
        e1.playerId = tgt → e2.playerId = tgt →
        e1.matchId = e2.matchId → e1 = e2) := by
  intro rem
  induction rem with
  | nil =>
    intro cur _ _ _ _ huniq
    exact ⟨fun e he _ => he, fun i hi => hi, by simp, huniq⟩
  | cons mp rest ih =>
    intro cur hdup hmem hid hnd huniq
    have hmpcur : mp ∈ cur := hmem mp (by simp)
    have hmpid : ∀ e ∈ cur, e.id = mp.id → e = mp := hid mp (by simp)
    have hnd' : (mp.id :: rest.map (fun e => e.id)).Nodup := by
      simpa using hnd
    have hrestnd : (rest.map (fun e => e.id)).Nodup := hnd'.of_cons
    have hheadid : ∀ mp2 ∈ rest, mp.id ≠ mp2.id := by
      intro mp2 hmp2 hcontra
      exact (List.nodup_cons.mp hnd').1
        (hcontra ▸ List.mem_map_of_mem (fun e => e.id) hmp2)
    simp only [List.foldl_cons]
    cases htm :
        cur.any (fun e => e.matchId = mp.matchId && e.playerId = tgt) with
    | true =>
      rw [mergeRosterStep_pos tgt cur mp htm]
      set cur' := cur.filter (fun e => e.id ≠ mp.id) with hcur'
      have hsub : ∀ e ∈ cur', e ∈ cur := fun e he =>
        List.mem_of_mem_filter he
      have hnotid : ∀ e ∈ cur', e.id ≠ mp.id := by
        intro e he
        simpa using List.of_mem_filter he
      have ihx := ih cur'
        (fun m hm => hdup m (by simp [hm]))
        (fun m hm => by
          refine List.mem_filter.mpr ⟨hmem m (by simp [hm]), ?_⟩
          simpa using fun hc => (hheadid m hm) hc.symm)
        (fun m hm e he hide => hid m (by simp [hm]) e (hsub e he) hide)
        hrestnd
        (fun e1 he1 e2 he2 => huniq e1 (hsub e1 he1) e2 (hsub e2 he2))
      refine ⟨?_, ?_, ?_, ihx.2.2.2⟩
      · intro e he hne
        exact ihx.1 e
          (List.mem_filter.mpr ⟨he, by simpa using hne mp (by simp)⟩)
          (fun m hm => hne m (by simp [hm]))
      · intro i hi
        exact ihx.2.1 i (fun e he => hi e (hsub e he))
      · intro m hm
        rcases List.mem_cons.mp hm with hm | hm
        · subst hm
          exact Or.inr (ihx.2.1 m.id hnotid)
        · exact ihx.2.2.1 m hm
    | false =>
      rw [mergeRosterStep_neg tgt cur mp htm]
      have htm' : ∀ e ∈ cur,
          ¬(e.matchId = mp.matchId ∧ e.playerId = tgt) := by
        intro e he hcon
        rw [List.any_eq_false] at htm
        exact absurd (by simp [hcon.1, hcon.2] :
          (e.matchId = mp.matchId && e.playerId = tgt) = true)
          (by simpa using htm e he)
      set upd := fun e : MatchPlayer =>
        if e.id = mp.id then { e with playerId := tgt } else e with hupd
      set cur' := cur.map upd with hcur'
      have hupd_id : ∀ e, (upd e).id = e.id := by
        intro e
        by_cases h : e.id = mp.id <;> simp [hupd, h]
      have hmem' : ∀ e ∈ cur, e.id ≠ mp.id → e ∈ cur' := by
        intro e he hne
        have heq : upd e = e := by simp [hupd, hne]
        exact heq ▸ List.mem_map_of_mem upd he
      have hstar : ({ mp with playerId := tgt } : MatchPlayer) ∈ cur' := by
        have heq : upd mp = { mp with playerId := tgt } := by simp [hupd]
        exact heq ▸ List.mem_map_of_mem upd hmpcur
      have hsrc : ∀ e ∈ cur', ∃ e0 ∈ cur, e = upd e0 := by
        intro e he
        obtain ⟨e0, he0, hee⟩ := List.mem_map.mp he
        exact ⟨e0, he0, hee.symm⟩
      have huniq' : ∀ e1 ∈ cur', ∀ e2 ∈ cur', e1.playerId = tgt →
          e2.playerId = tgt → e1.matchId = e2.matchId → e1 = e2 := by
        intro e1 he1 e2 he2 ht1 ht2 hmtch
        obtain ⟨a1, ha1, he1'⟩ := hsrc e1 he1
        obtain ⟨a2, ha2, he2'⟩ := hsrc e2 he2
        by_cases h1 : a1.id = mp.id <;> by_cases h2 : a2.id = mp.id
        · have hm1 : a1 = mp := hmpid a1 ha1 h1
          have hm2 : a2 = mp := hmpid a2 ha2 h2
          rw [he1', he2', hm1, hm2]
        · have hm1 : a1 = mp := hmpid a1 ha1 h1
          have he2'' : e2 = a2 := by rw [he2']; simp [hupd, h2]
          refine absurd ⟨?_, he2'' ▸ ht2⟩ (htm' a2 ha2)
          have hx : e1.matchId = mp.matchId := by
            rw [he1', hm1]; simp [hupd]
          rw [← he2'', ← hmtch, hx]
        · have hm2 : a2 = mp := hmpid a2 ha2 h2
          have he1'' : e1 = a1 := by rw [he1']; simp [hupd, h1]
          refine absurd ⟨?_, he1'' ▸ ht1⟩ (htm' a1 ha1)
          have hx : e2.matchId = mp.matchId := by
            rw [he2', hm2]; simp [hupd]
          rw [← he1'', hmtch, hx]
        · have he1'' : e1 = a1 := by rw [he1']; simp [hupd, h1]
          have he2'' : e2 = a2 := by rw [he2']; simp [hupd, h2]
          rw [he1'', he2'']
          exact huniq a1 ha1 a2 ha2 (he1'' ▸ ht1) (he2'' ▸ ht2)
            (by rw [← he1'', ← he2'']; exact hmtch)
      have ihx := ih cur'
        (fun m hm => hdup m (by simp [hm]))
        (fun m hm => hmem' m (hmem m (by simp [hm]))
          (fun hc => (hheadid m hm) hc.symm))
        (fun m hm e he hide => by
          obtain ⟨e0, he0, hee⟩ := hsrc e he
          have hid0 : e.id = e0.id := by rw [hee, hupd_id]
          by_cases h0 : e0.id = mp.id
          · exact absurd (by rw [← h0, ← hid0, hide]) (hheadid m hm)
          · have he0e : e = e0 := by rw [hee]; simp [hupd, h0]
            exact he0e ▸ hid m (by simp [hm]) e0 he0 (he0e ▸ hide))
        hrestnd
        huniq'
      refine ⟨?_, ?_, ?_, ihx.2.2.2⟩
      · intro e he hne
        exact ihx.1 e (hmem' e he (hne mp (by simp)))
          (fun m hm => hne m (by simp [hm]))
      · intro i hi
        refine ihx.2.1 i ?_
        intro e he
        obtain ⟨e0, he0, hee⟩ := hsrc e he
        rw [hee, hupd_id]
        exact hi e0 he0
      · intro m hm
        rcases List.mem_cons.mp hm with hm | hm
        · subst hm
          left
          have hfin : ({ m with playerId := tgt } : MatchPlayer) ∈
              rest.foldl (mergeRosterStep tgt) cur' :=
            ihx.1 _ hstar (fun m2 hm2 => by simpa using hheadid m2 hm2)
          exact ⟨{ m with playerId := tgt }, hfin, by simp, by simp,
            by simp⟩
        · exact ihx.2.2.1 m hm

end PlayersService

namespace PlayersService

theorem mergeTeamStep_pos (tgt : Nat) (now : JsDate)
    (cur : List PlayerTeam) (a : PlayerTeam)
    (h : cur.any (fun pt =>
      pt.playerId = tgt && pt.teamId = a.teamId && pt.isActive) = true) :
    mergeTeamStep tgt now cur a =
      cur.map (fun pt =>
        if pt.id = a.id then
          { pt with isActive := false, leftAt := some now }
        else pt) := by
  simp [mergeTeamStep, h]

theorem mergeTeamStep_neg (tgt : Nat) (now : JsDate)
    (cur : List PlayerTeam) (a : PlayerTeam)
    (h : cur.any (fun pt =>
      pt.playerId = tgt && pt.teamId = a.teamId && pt.isActive) = false) :
    mergeTeamStep tgt now cur a =
      cur.map (fun pt =>
        if pt.id = a.id then { pt with playerId := tgt } else pt) := by
  simp [mergeTeamStep, h]

/-- Invariant lemma for the membership loop of the merge (step 1): folding
`mergeTeamStep` over the active memberships of the duplicate leaves untouched
rows in place, and reassigns to the target every processed membership whose
team did not already hold an active target membership. -/
theorem mergeTeamStep_fold (dup tgt : Nat) (now : JsDate) :
    ∀ (rem cur : List PlayerTeam),
      (∀ a ∈ rem, a ∈ cur) →
      (∀ a ∈ rem, ∀ e ∈ cur, e.id = a.id → e = a) →
      (rem.map (fun e => e.id)).Nodup →
      rem.Pairwise (fun a b => a.teamId ≠ b.teamId) →
      (∀ e ∈ cur, (∀ a ∈ rem, e.id ≠ a.id) →
          e ∈ rem.foldl (mergeTeamStep tgt now) cur) ∧
      (∀ a ∈ rem,
          ¬(∃ q ∈ cur, q.playerId = tgt ∧ q.teamId = a.teamId ∧
              q.isActive) →
          ∃ e ∈ rem.foldl (mergeTeamStep tgt now) cur,
            e.id = a.id ∧ e.playerId = tgt) := by
  intro rem
  induction rem with
  | nil =>
    intro cur _ _ _ _
    exact ⟨fun e he _ => he, by simp⟩
  | cons a rest ih =>
    intro cur hmem hid hnd hpw
    have hacur : a ∈ cur := hmem a (by simp)
    have haid : ∀ e ∈ cur, e.id = a.id → e = a := hid a (by simp)
    have hnd' : (a.id :: rest.map (fun e => e.id)).Nodup := by
      simpa using hnd
    have hrestnd : (rest.map (fun e => e.id)).Nodup := hnd'.of_cons
    have hheadid : ∀ a2 ∈ rest, a.id ≠ a2.id := by
      intro a2 ha2 hcontra
      exact (List.nodup_cons.mp hnd').1
        (hcontra ▸ List.mem_map_of_mem (fun e => e.id) ha2)
    have hheadteam : ∀ a2 ∈ rest, a.teamId ≠ a2.teamId :=
      fun a2 ha2 => (List.pairwise_cons.mp hpw).1 a2 ha2
    have hrestpw : rest.Pairwise (fun x y => x.teamId ≠ y.teamId) :=
      (List.pairwise_cons.mp hpw).2
    simp only [List.foldl_cons]
    cases hta : cur.any (fun pt =>
        pt.playerId = tgt && pt.teamId = a.teamId && pt.isActive) with
    | true =>
      rw [mergeTeamStep_pos tgt now cur a hta]
      set upd := fun pt : PlayerTeam =>
        if pt.id = a.id then
          { pt with isActive := false, leftAt := some now }
        else pt with hupd
      set cur' := cur.map upd with hcur'
      have hupd_id : ∀ e, (upd e).id = e.id := by
        intro e
        by_cases h : e.id = a.id <;> simp [hupd, h]
      have hmem' : ∀ e ∈ cur, e.id ≠ a.id → e ∈ cur' := by
        intro e he hne
        have heq : upd e = e := by simp [hupd, hne]
        exact heq ▸ List.mem_map_of_mem upd he
      have hsrc : ∀ e ∈ cur', ∃ e0 ∈ cur, e = upd e0 := by
        intro e he
        obtain ⟨e0, he0, hee⟩ := List.mem_map.mp he
        exact ⟨e0, he0, hee.symm⟩
      have ihx := ih cur'
        (fun m hm => hmem' m (hmem m (by simp [hm]))
          (fun hc => (hheadid m hm) hc.symm))
        (fun m hm e he hide => by
          obtain ⟨e0, he0, hee⟩ := hsrc e he
          have hid0 : e.id = e0.id := by rw [hee, hupd_id]
          by_cases h0 : e0.id = a.id
          · exact absurd (by rw [← h0, ← hid0, hide]) (hheadid m hm)
          · have he0e : e = e0 := by rw [hee]; simp [hupd, h0]
            exact he0e ▸ hid m (by simp [hm]) e0 he0 (he0e ▸ hide))
        hrestnd
        hrestpw
      refine ⟨?_, ?_⟩
      · intro e he hne
        exact ihx.1 e (hmem' e he (hne a (by simp)))
          (fun m hm => hne m (by simp [hm]))
      · intro m hm hnact
        rcases List.mem_cons.mp hm with hm | hm
        · exfalso
          subst hm
          rw [List.any_eq_true] at hta
          obtain ⟨q, hq, hqp⟩ := hta
          simp only [Bool.and_eq_true, decide_eq_true_eq] at hqp
          exact hnact ⟨q, hq, hqp.1.1, hqp.1.2, hqp.2⟩
        · refine ihx.2 m hm ?_
          rintro ⟨q, hq, hq1, hq2, hq3⟩
          obtain ⟨q0, hq0, hqq⟩ := hsrc q hq
          by_cases h0 : q0.id = a.id
          · have : q = { q0 with isActive := false, leftAt := some now } :=
              by rw [hqq]; simp [hupd, h0]
            rw [this] at hq3
            simp at hq3
          · have hq0q : q = q0 := by rw [hqq]; simp [hupd, h0]
            exact hnact ⟨q0, hq0, hq0q ▸ hq1, hq0q ▸ hq2, hq0q ▸ hq3⟩
    | false =>
      rw [mergeTeamStep_neg tgt now cur a hta]
      set upd := fun pt : PlayerTeam =>
        if pt.id = a.id then { pt with playerId := tgt } else pt with hupd
      set cur' := cur.map upd with hcur'
      have hupd_id : ∀ e, (upd e).id = e.id := by
        intro e
        by_cases h : e.id = a.id <;> simp [hupd, h]
      have hmem' : ∀ e ∈ cur, e.id ≠ a.id → e ∈ cur' := by
        intro e he hne
        have heq : upd e = e := by simp [hupd, hne]
        exact heq ▸ List.mem_map_of_mem upd he
      have hstar : ({ a with playerId := tgt } : PlayerTeam) ∈ cur' := by
        have heq : upd a = { a with playerId := tgt } := by simp [hupd]
        exact heq ▸ List.mem_map_of_mem upd hacur
      have hsrc : ∀ e ∈ cur', ∃ e0 ∈ cur, e = upd e0 := by
        intro e he
        obtain ⟨e0, he0, hee⟩ := List.mem_map.mp he
        exact ⟨e0, he0, hee.symm⟩
      have ihx := ih cur'
        (fun m hm => hmem' m (hmem m (by simp [hm]))
          (fun hc => (hheadid m hm) hc.symm))
        (fun m hm e he hide => by
          obtain ⟨e0, he0, hee⟩ := hsrc e he
          have hid0 : e.id = e0.id := by rw [hee, hupd_id]
          by_cases h0 : e0.id = a.id
          · exact absurd (by rw [← h0, ← hid0, hide]) (hheadid m hm)
          · have he0e : e = e0 := by rw [hee]; simp [hupd, h0]
            exact he0e ▸ hid m (by simp [hm]) e0 he0 (he0e ▸ hide))
        hrestnd
        hrestpw
      refine ⟨?_, ?_⟩
      · intro e he hne
        exact ihx.1 e (hmem' e he (hne a (by simp)))
          (fun m hm => hne m (by simp [hm]))
      · intro m hm hnact
        rcases List.mem_cons.mp hm with hm | hm
        · subst hm
          refine ⟨{ m with playerId := tgt }, ?_, by simp, by simp⟩
          exact ihx.1 _ hstar (fun m2 hm2 => by simpa using hheadid m2 hm2)
        · refine ihx.2 m hm ?_
          rintro ⟨q, hq, hq1, hq2, hq3⟩
          obtain ⟨q0, hq0, hqq⟩ := hsrc q hq
          by_cases h0 : q0.id = a.id
          · have hq0a : q0 = a := haid q0 hq0 h0
            have : q = { a with playerId := tgt } := by
              rw [hqq, hq0a]; simp [hupd]
            rw [this] at hq2
            simp at hq2
            exact (hheadteam m hm) hq2
          · have hq0q : q = q0 := by rw [hqq]; simp [hupd, h0]
            exact hnact ⟨q0, hq0, hq0q ▸ hq1, hq0q ▸ hq2, hq0q ▸ hq3⟩

end PlayersService

namespace PlayersService

/-- C3: after a successful `mergePlayers(duplicateId, targetId)` — under the
store invariants that ids are unique, that the roster rows of the target are
unique per match, and that the duplicate holds at most one active
membership per team — (a) the duplicate record no longer resolves, (b)
every match-stat row that referenced the duplicate now references the
target, (c) every roster row of the duplicate was either reassigned to the
target or deleted, the target ending with at most one roster row per match,
and (d) no membership references the duplicate: its active memberships were
reassigned unless the target was already active on that team, and every
remaining membership of the duplicate was deleted. -/
theorem mergePlayers_postconditions (s : Store) (dup tgt : Nat)
    (now : JsDate) (s' : Store) (r : Player)
    (hok : mergePlayers s dup tgt now = (s', Except.ok r))
    (hmpnd : (s.matchPlayers.map (fun e => e.id)).Nodup)
    (hptnd : (s.playerTeams.map (fun e => e.id)).Nodup)
    (htgtuniq : ∀ e1 ∈ s.matchPlayers, ∀ e2 ∈ s.matchPlayers,
      e1.playerId = tgt → e2.playerId = tgt → e1.matchId = e2.matchId →
      e1 = e2)
    (hdupteams : ∀ a1 ∈ s.playerTeams, ∀ a2 ∈ s.playerTeams,
      a1.playerId = dup → a2.playerId = dup → a1.isActive = true →
      a2.isActive = true → a1.teamId = a2.teamId → a1 = a2) :
    (∀ p ∈ s'.players, p.id ≠ dup) ∧
    s'.matchStats = s.matchStats.map (fun ms =>
      if ms.playerId = dup then { ms with playerId := tgt } else ms) ∧
    (∀ ms ∈ s'.matchStats, ms.playerId ≠ dup) ∧
    (∀ mp ∈ s.matchPlayers, mp.playerId = dup →
      (∃ e ∈ s'.matchPlayers, e.id = mp.id ∧ e.playerId = tgt ∧
        e.matchId = mp.matchId) ∨
      (∀ e ∈ s'.matchPlayers, e.id ≠ mp.id)) ∧
    (∀ e1 ∈ s'.matchPlayers, ∀ e2 ∈ s'.matchPlayers, e1.playerId = tgt →
      e2.playerId = tgt → e1.matchId = e2.matchId → e1 = e2) ∧
    (∀ pt ∈ s'.playerTeams, pt.playerId ≠ dup) ∧
    (∀ pt ∈ s.playerTeams, pt.playerId = dup → pt.isActive = true →
      ¬(∃ q ∈ s.playerTeams, q.playerId = tgt ∧ q.teamId = pt.teamId ∧
          q.isActive = true) →
      ∃ pt' ∈ s'.playerTeams, pt'.id = pt.id ∧ pt'.playerId = tgt) := by
  -- a successful outcome implies both guards passed and `s'` is the body
  have hneq : dup ≠ tgt := by
    intro h
    unfold mergePlayers at hok
    rw [if_pos h] at hok
    simp at hok
  have hs' : s' = mergeBody s dup tgt now := by
    unfold mergePlayers at hok
    rw [if_neg hneq] at hok
    cases hfd : s.players.find? (fun p => p.id = dup) with
    | none => rw [hfd] at hok; simp at hok
    | some pd =>
      cases hft : s.players.find? (fun p => p.id = tgt) with
      | none => rw [hfd, hft] at hok; simp at hok
      | some pt =>
        rw [hfd, hft] at hok
        exact (congrArg Prod.fst hok).symm
  subst hs'
  have hplayers : (mergeBody s dup tgt now).players =
      s.players.filter (fun p => p.id ≠ dup) := rfl
  have hstats : (mergeBody s dup tgt now).matchStats =
      s.matchStats.map (fun ms =>
        if ms.playerId = dup then { ms with playerId := tgt } else ms) := rfl
  have hmps : (mergeBody s dup tgt now).matchPlayers =
      (s.matchPlayers.filter (fun mp => mp.playerId = dup)).foldl
        (mergeRosterStep tgt) s.matchPlayers := rfl
  have hpts : (mergeBody s dup tgt now).playerTeams =
      ((s.playerTeams.filter (fun pt =>
          pt.playerId = dup && pt.isActive)).foldl
        (mergeTeamStep tgt now) s.playerTeams).filter
        (fun pt => pt.playerId ≠ dup) := rfl
  -- the roster fold lemma, instantiated
  have hrfold := mergeRosterStep_fold dup tgt
    (s.matchPlayers.filter (fun mp => mp.playerId = dup)) s.matchPlayers
    (fun mp hmp => by simpa using List.of_mem_filter hmp)
    (fun mp hmp => List.mem_of_mem_filter hmp)
    (fun mp hmp e he hide =>
      List.inj_on_of_nodup_map hmpnd he (List.mem_of_mem_filter hmp) hide)
    (List.Nodup.sublist
      ((List.filter_sublist _).map (fun e : MatchPlayer => e.id)) hmpnd)
    htgtuniq
  -- the membership fold lemma, instantiated
  have hdupact : ∀ a ∈ s.playerTeams.filter (fun pt =>
      pt.playerId = dup && pt.isActive),
      a.playerId = dup ∧ a.isActive = true := by
    intro a ha
    have := List.of_mem_filter ha
    simpa using this
  have htfold := mergeTeamStep_fold dup tgt now
    (s.playerTeams.filter (fun pt => pt.playerId = dup && pt.isActive))
    s.playerTeams
    (fun a ha => List.mem_of_mem_filter ha)
    (fun a ha e he hide =>
      List.inj_on_of_nodup_map hptnd he (List.mem_of_mem_filter ha) hide)
    (List.Nodup.sublist
      ((List.filter_sublist _).map (fun e : PlayerTeam => e.id)) hptnd)
    (by
      have hnd2 : (s.playerTeams.filter (fun pt =>
          pt.playerId = dup && pt.isActive)).Pairwise
          (fun a b => a.id ≠ b.id) :=
        List.pairwise_map.mp
          (List.Nodup.sublist
            ((List.filter_sublist _).map (fun e : PlayerTeam => e.id))
            hptnd)
      refine hnd2.imp_of_mem ?_
      intro a b ha hb hab
      intro hteam
      obtain ⟨ha1, ha2⟩ := hdupact a ha
      obtain ⟨hb1, hb2⟩ := hdupact b hb
      exact hab (congrArg PlayerTeam.id
        (hdupteams a (List.mem_of_mem_filter ha) b
          (List.mem_of_mem_filter hb) ha1 hb1 ha2 hb2 hteam)))
  refine ⟨?_, hstats, ?_, ?_, ?_, ?_, ?_⟩
  · intro p hp
    rw [hplayers] at hp
    simpa using List.of_mem_filter hp
  · intro ms hms
    rw [hstats] at hms
    obtain ⟨ms0, _, hmap⟩ := List.mem_map.mp hms
    by_cases h0 : ms0.playerId = dup
    · rw [← hmap]
      simp [h0]
      exact fun hc => hneq hc.symm
    · rw [← hmap]
      simp [h0]
  · intro mp hmp hdup0
    rw [hmps]
    exact hrfold.2.2.1 mp (List.mem_filter.mpr ⟨hmp, by simpa using hdup0⟩)
  · intro e1 he1 e2 he2
    rw [hmps] at he1 he2
    exact hrfold.2.2.2 e1 he1 e2 he2
  · intro pt hpt
    rw [hpts] at hpt
    simpa using List.of_mem_filter hpt
  · intro pt hpt hdup0 hact hnq
    have hptm : pt ∈ s.playerTeams.filter (fun q =>
        q.playerId = dup && q.isActive) :=
      List.mem_filter.mpr ⟨hpt, by simp [hdup0, hact]⟩
    obtain ⟨e, he, heid, hetgt⟩ := htfold.2 pt hptm (by
      rintro ⟨q, hq, h1, h2, h3⟩
      exact hnq ⟨q, hq, h1, h2, h3⟩)
    refine ⟨e, ?_, heid, hetgt⟩
    rw [hpts]
    refine List.mem_filter.mpr ⟨he, ?_⟩
    simp [hetgt]
    exact fun hc => hneq hc.symm

end PlayersService

namespace PlayersService

/-- C4 counterexample: `bulkCreateForTeam` throws on a batch whose second
row requests a jersey already active on the team — the whole call fails
with the conflict rejection before any row is processed and nothing is
created, contradicting the claimed row-level error isolation. -/
theorem bulkCreateForTeam_jersey_conflict_counterexample :
    bulkCreateForTeam jerseyDemoStore 1 jerseyDemoBulkRows =
      (jerseyDemoStore, .error .conflict) := by rfl

theorem indexOf_getElem_of_nodup (l : List Nat) (hnd : l.Nodup) (i : Nat)
    (h : i < l.length) : l.indexOf l[i] = i := by
  have hle : l.indexOf l[i] ≤ i := indexOf_getElem_le l i h
  have hmem : l[i] ∈ l := List.getElem_mem h
  have hlt : l.indexOf l[i] < l.length := List.indexOf_lt_length.mpr hmem
  have hget : l[l.indexOf l[i]] = l[i] := List.getElem_indexOf hlt
  exact (hnd.getElem_inj_iff).mp hget

theorem dup_jerseys_eq_nil_of_nodup (l : List Nat) (hnd : l.Nodup) :
    l.enum.filter (fun x => l.indexOf x.2 ≠ x.1) = [] := by
  rw [List.filter_eq_nil_iff]
  rintro ⟨i, v⟩ ha
  have hv : l[i]? = some v := List.mk_mem_enum_iff_getElem?.mp ha
  have hi : i < l.length := by
    by_contra hno
    rw [List.getElem?_eq_none (by omega)] at hv
    simp at hv
  have hvv : l[i] = v := by
    rw [List.getElem?_eq_getElem hi] at hv
    exact Option.some.inj hv
  simp [← hvv, indexOf_getElem_of_nodup l hnd i hi]

/-- C4 (amended): the spreadsheet path `processBulkUpload` isolates jersey
conflicts per row: for every store whose target team resolves the call
returns normally, and any row carrying a name and a nonzero jersey number
already active on the team is recorded in `errors` under its spreadsheet
row number, leaving the store and the created count of that step untouched,
so the remaining rows are processed against an unchanged store; the request
path `bulkCreateForTeam` instead rejects the entire batch with the conflict
error — store unchanged, nothing created — whenever the request repeats no
jersey internally and any requested jersey is already active on the
team. -/
theorem bulk_jersey_row_isolation :
    (∀ (s : Store) (teamId : Nat) (rows : List RowUpload),
      teamId ∈ s.teams →
      ∃ r, (processBulkUpload s teamId rows).2 = Except.ok r) ∧
    (∀ (teamId : Nat) (st : Store × UploadResult) (idx : Nat)
      (row : RowUpload) (fn ln : Str) (j : Nat),
      row.firstName = some fn → row.lastName = some ln →
      row.jerseyNumber = some j → j ≠ 0 →
      (∃ pt ∈ st.1.playerTeams, pt.teamId = teamId ∧
        pt.jerseyNumber = j ∧ pt.isActive = true) →
      (uploadRowStep teamId st (idx, row)).1 = st.1 ∧
      (uploadRowStep teamId st (idx, row)).2.errors =
        st.2.errors ++ [(idx + 2, UploadErr.jerseyTaken j)] ∧
      (uploadRowStep teamId st (idx, row)).2.created = st.2.created) ∧
    (∀ (s : Store) (teamId : Nat) (rows : List RowData),
      teamId ∈ s.teams →
      (rows.map (fun r => r.jerseyNumber)).Nodup →
      (∃ pt ∈ s.playerTeams, pt.teamId = teamId ∧
        pt.jerseyNumber ∈ rows.map (fun r => r.jerseyNumber) ∧
        pt.isActive = true) →
      bulkCreateForTeam s teamId rows =
        (s, Except.error SvcError.conflict)) := by
  refine ⟨?_, ?_, ?_⟩
  · intro s teamId rows hteam
    unfold processBulkUpload
    rw [if_neg (by simp [hteam])]
    exact ⟨_, rfl⟩
  · intro teamId st idx row fn ln j hfn hln hj hj0 hex
    have hany : st.1.playerTeams.any (fun pt =>
        pt.teamId = teamId && pt.jerseyNumber = j && pt.isActive) =
        true := by
      rw [List.any_eq_true]
      obtain ⟨pt, hpt, h1, h2, h3⟩ := hex
      exact ⟨pt, hpt, by simp [h1, h2, h3]⟩
    obtain ⟨rfn, rln, re, rh, rp, rd, rn, rj⟩ := row
    dsimp only at hfn hln hj
    subst hfn; subst hln; subst hj
    rcases hdc : (PlayerDeduplicationService.findDuplicatePlayer
        st.1.players
        { firstName := jsTrim fn, lastName := jsTrim ln,
          email := re.map jsTrim, height := rh,
          phone := rp, dateOfBirth := rd,
          nationality := rn.map jsTrim }).existingPlayer
        with _ | ex <;>
      cases hmt : decide
        ((PlayerDeduplicationService.findDuplicatePlayer st.1.players
          { firstName := jsTrim fn, lastName := jsTrim ln,
            email := re.map jsTrim, height := rh,
            phone := rp, dateOfBirth := rd,
            nationality := rn.map jsTrim }).matchType ≠
          PlayerDeduplicationService.MatchTy.NO_MATCH) <;>
      refine ⟨?_, ?_, ?_⟩ <;>
      simp [uploadRowStep, hdc, hmt, hj0, hany]
  · intro s teamId rows hteam hnd hex
    unfold bulkCreateForTeam
    rw [if_neg (by simp [hteam])]
    dsimp only
    rw [dup_jerseys_eq_nil_of_nodup _ hnd]
    simp only [List.length_nil, gt_iff_lt, lt_self_iff_false, if_false]
    obtain ⟨pt, hpt, h1, h2, h3⟩ := hex
    have hmem2 : pt ∈ s.playerTeams.filter (fun q =>
        q.teamId = teamId &&
          q.jerseyNumber ∈ rows.map (fun r => r.jerseyNumber) &&
          q.isActive) := by
      refine List.mem_filter.mpr ⟨hpt, ?_⟩
      simp [h1, h2, h3]
    rw [if_pos (by
      simpa using List.length_pos.mpr (List.ne_nil_of_mem hmem2))]

/-- Concrete instantiation of the three parts of the jersey-isolation
theorem on the demonstration store: the upload call returns normally, the
conflicting row only appends its error entry, and the request path rejects
the whole batch. -/
theorem bulk_jersey_row_isolation_witness :
    (∃ r, (processBulkUpload jerseyDemoStore 1 jerseyDemoUploadRows).2 =
        Except.ok r) ∧
    ((uploadRowStep 1
        (jerseyDemoStore,
         { totalProcessed := 3, created := 0, duplicatesFound := 0,
           errors := [], details := [] })
        (0,
         { firstName := some "Cd".toList, lastName := some "Df".toList,
           email := some "b@x".toList, jerseyNumber := some 5 })).1 =
        jerseyDemoStore ∧
      (uploadRowStep 1
        (jerseyDemoStore,
         { totalProcessed := 3, created := 0, duplicatesFound := 0,
           errors := [], details := [] })
        (0,
         { firstName := some "Cd".toList, lastName := some "Df".toList,
           email := some "b@x".toList, jerseyNumber := some 5 })).2.errors =
        [(2, UploadErr.jerseyTaken 5)] ∧
      (uploadRowStep 1
        (jerseyDemoStore,
         { totalProcessed := 3, created := 0, duplicatesFound := 0,
           errors := [], details := [] })
        (0,
         { firstName := some "Cd".toList, lastName := some "Df".toList,
           email := some "b@x".toList, jerseyNumber := some 5 })).2.created =
        0) ∧
    bulkCreateForTeam jerseyDemoStore 1 jerseyDemoBulkRows =
      (jerseyDemoStore, Except.error SvcError.conflict) :=
  ⟨bulk_jersey_row_isolation.1 jerseyDemoStore 1 jerseyDemoUploadRows
      (by decide),
   bulk_jersey_row_isolation.2.1 1
      (jerseyDemoStore,
       { totalProcessed := 3, created := 0, duplicatesFound := 0,
         errors := [], details := [] })
      0
      { firstName := some "Cd".toList, lastName := some "Df".toList,
        email := some "b@x".toList, jerseyNumber := some 5 }
      "Cd".toList "Df".toList 5 rfl rfl rfl (by decide)
      ⟨{ id := 1, playerId := 50, teamId := 1, jerseyNumber := 5,
         isActive := true }, by decide, rfl, rfl, rfl⟩,
   bulk_jersey_row_isolation.2.2 jerseyDemoStore 1 jerseyDemoBulkRows
      (by decide) (by simp [jerseyDemoBulkRows])
      ⟨{ id := 1, playerId := 50, teamId := 1, jerseyNumber := 5,
         isActive := true }, by decide, rfl, by decide, rfl⟩⟩


/-- C3 witness: the merge postconditions applied to a concrete two-player
store (duplicate id 1 merged into target id 2), here the stat-reassignment
conclusion. -/
theorem mergePlayers_postconditions_witness :
    mergeDemoStoreAfter.matchStats = mergeDemoStore.matchStats.map
      (fun ms => if ms.playerId = 1 then { ms with playerId := 2 }
        else ms) :=
  (mergePlayers_postconditions mergeDemoStore 1 2 ⟨0, 0⟩
      mergeDemoStoreAfter mergeDemoTarget (by rfl)
      (by simp [mergeDemoStore]) (by simp [mergeDemoStore]) (by decide)
      (by decide)).2.1

end PlayersService
